import Mathlib

/-!
VoxGuard: alert and gateway aggregates, call-event handling, MSISDN
normalization, blacklist, access checks, password policy and analytics.

A shallow embedding of

* `internal/domain/fraud/entity/alert.go` (the `FraudAlert` aggregate and the
  blacklist entries),
* `integration/voice-switch-im/fraud_handler.go` (the active-call registry, the
  event buffer and the disconnect dispatcher),
* `internal/domain/gateway/entity/gateway.go` (the `Gateway` aggregate),
* `internal/domain/mnp/entity/mnp.go` (MSISDN validation and normalization),
* `internal/domain/fraud/service/fraud_service.go` (`AddToBlacklist`),
* `internal/domain/security/service/rbac_service.go` (`CheckAccess`) and
  `auth_service.go` (`validatePassword`), and
* `internal/infrastructure/analytics/revenue_calculator.go` and
  `threat_predictor.go` (the revenue breakdown and `calculateProbability`),

followed by the properties proved about them.

Conventions of the embedding:

* a Go method with a pointer receiver that returns `error` becomes a function
  returning the receiver after the call together with `Option` of the error;
* `time.Now()` and `uuid.New()` are read from the environment, so they are
  explicit arguments;
* a Go pointer field (`*string`, `*time.Time`) is an `Option`;
* in the aggregates `float64` values are only compared, never computed with,
  so a double is represented by its exact rational value (plus NaN and the
  infinities); the arithmetic of the analytics files is exact arithmetic on
  rationals.
-/

namespace VoxGuard

/-! ## float64 comparison -/

/-- An IEEE-754 double as seen by comparisons: NaN, an infinity, or a finite
value given by its exact rational value. -/
inductive Float64 where
  | nan
  | negInf
  | finite (q : ℚ)
  | posInf
deriving DecidableEq

/-- Go `x >= y` on float64 operands; false as soon as one side is NaN. -/
def Float64.ge : Float64 → Float64 → Bool
  | .nan, _ => false
  | _, .nan => false
  | .posInf, _ => true
  | _, .negInf => true
  | .negInf, _ => false
  | .finite _, .posInf => false
  | .finite a, .finite b => decide (b ≤ a)

/-- Go `x < y` on float64 operands; false as soon as one side is NaN. -/
def Float64.lt : Float64 → Float64 → Bool
  | .nan, _ => false
  | _, .nan => false
  | .posInf, _ => false
  | _, .negInf => false
  | .negInf, _ => true
  | .finite _, .posInf => true
  | .finite a, .finite b => decide (a < b)

/-- Go `x > y` on float64 operands. -/
def Float64.gt (x y : Float64) : Bool := y.lt x

/-- The float64 constant `0.9` (nearest double, 8106479329266893 / 2^53). -/
def c0_9 : Float64 := .finite (8106479329266893 / 9007199254740992)

/-- The float64 constant `0.75` (exact). -/
def c0_75 : Float64 := .finite (3 / 4)

/-- The float64 constant `0.5` (exact). -/
def c0_5 : Float64 := .finite (1 / 2)

/-- The float64 constant `0.95` (nearest double, 4278419646001971 / 2^52). -/
def c0_95 : Float64 := .finite (4278419646001971 / 4503599627370496)

/-! ## alert.go -/

/-- Wall-clock instants (`time.Time`), as a count of ticks. -/
abbrev Time := Nat

/-- Domain errors of alert.go. -/
inductive AlertError where
  | ErrAlertAlreadyAcknowledged
  | ErrAlertAlreadyResolved
  | ErrAlertNotAcknowledged
deriving DecidableEq, Repr

/-- The type `AlertStatus` and its five constants. -/
inductive AlertStatus where
  | AlertStatusPending
  | AlertStatusAcknowledged
  | AlertStatusInvestigating
  | AlertStatusResolved
  | AlertStatusReportedNCC
deriving DecidableEq, Repr

/-- The type `Severity` (constants 1 to 4). -/
inductive Severity where
  | SeverityLow
  | SeverityMedium
  | SeverityHigh
  | SeverityCritical
deriving DecidableEq, Repr

/-- The type `ResolutionType`; a Go string type, so any string is a value. The
four declared constants follow. -/
abbrev ResolutionType := String

def ResolutionConfirmedFraud : ResolutionType := "confirmed_fraud"
def ResolutionFalsePositive : ResolutionType := "false_positive"
def ResolutionEscalated : ResolutionType := "escalated"
def ResolutionWhitelisted : ResolutionType := "whitelisted"

/-- The struct `FraudAlert`, field for field. -/
structure FraudAlert where
  id : String
  callID : String
  eventType : String
  severity : Severity
  aNumber : String
  bNumber : String
  sourceIP : String
  gatewayID : String
  confidence : Float64
  detectionMethod : String
  matchedPatterns : List String
  status : AlertStatus
  acknowledgedBy : Option String
  acknowledgedAt : Option Time
  resolvedBy : Option String
  resolvedAt : Option Time
  resolution : Option ResolutionType
  resolutionNotes : Option String
  nccReported : Bool
  nccReportID : Option String
  nccReportedAt : Option Time
  detectedAt : Time
  updatedAt : Time
deriving DecidableEq

/-- The severity switch of `NewFraudAlert`. -/
def severityOf (confidence : Float64) : Severity :=
  if confidence.ge c0_9 then Severity.SeverityCritical
  else if confidence.ge c0_75 then Severity.SeverityHigh
  else if confidence.ge c0_5 then Severity.SeverityMedium
  else Severity.SeverityLow

/-- `NewFraudAlert`; `id` is the fresh uuid and `now` the clock reading. -/
def NewFraudAlert (id : String) (now : Time)
    (callID eventType aNumber bNumber sourceIP gatewayID : String)
    (confidence : Float64) (detectionMethod : String)
    (matchedPatterns : List String) : FraudAlert :=
  { id := id
    callID := callID
    eventType := eventType
    severity := severityOf confidence
    aNumber := aNumber
    bNumber := bNumber
    sourceIP := sourceIP
    gatewayID := gatewayID
    confidence := confidence
    detectionMethod := detectionMethod
    matchedPatterns := matchedPatterns
    status := AlertStatus.AlertStatusPending
    acknowledgedBy := none
    acknowledgedAt := none
    resolvedBy := none
    resolvedAt := none
    resolution := none
    resolutionNotes := none
    nccReported := false
    nccReportID := none
    nccReportedAt := none
    detectedAt := now
    updatedAt := now }

/-- `FraudAlert.Acknowledge`. -/
def FraudAlert.Acknowledge (a : FraudAlert) (now : Time) (userID : String) :
    FraudAlert × Option AlertError :=
  if a.status ≠ AlertStatus.AlertStatusPending then
    (a, some AlertError.ErrAlertAlreadyAcknowledged)
  else
    ({ a with
        status := AlertStatus.AlertStatusAcknowledged
        acknowledgedBy := some userID
        acknowledgedAt := some now
        updatedAt := now }, none)

/-- `FraudAlert.StartInvestigation`. -/
def FraudAlert.StartInvestigation (a : FraudAlert) (now : Time) :
    FraudAlert × Option AlertError :=
  if a.status ≠ AlertStatus.AlertStatusAcknowledged then
    (a, some AlertError.ErrAlertNotAcknowledged)
  else
    ({ a with
        status := AlertStatus.AlertStatusInvestigating
        updatedAt := now }, none)

/-- `FraudAlert.Resolve`. -/
def FraudAlert.Resolve (a : FraudAlert) (now : Time) (userID : String)
    (resolution : ResolutionType) (notes : String) :
    FraudAlert × Option AlertError :=
  if a.status = AlertStatus.AlertStatusResolved then
    (a, some AlertError.ErrAlertAlreadyResolved)
  else
    ({ a with
        status := AlertStatus.AlertStatusResolved
        resolvedBy := some userID
        resolvedAt := some now
        resolution := some resolution
        resolutionNotes := if notes ≠ "" then some notes else a.resolutionNotes
        updatedAt := now }, none)

/-- `FraudAlert.ReportToNCC` (no error result in the source). -/
def FraudAlert.ReportToNCC (a : FraudAlert) (now : Time) (reportID : String) :
    FraudAlert :=
  { a with
      nccReported := true
      nccReportID := some reportID
      nccReportedAt := some now
      status := AlertStatus.AlertStatusReportedNCC
      updatedAt := now }

/-- `FraudAlert.ShouldAutoEscalate`. -/
def FraudAlert.ShouldAutoEscalate (a : FraudAlert) : Bool :=
  decide (a.severity = Severity.SeverityCritical) && a.confidence.ge c0_95

/-- One call of a state-changing method of the aggregate, with the values it
reads from its arguments and from the clock. -/
inductive AlertCall where
  | acknowledge (now : Time) (userID : String)
  | startInvestigation (now : Time)
  | resolve (now : Time) (userID : String) (resolution : ResolutionType)
      (notes : String)
  | reportToNCC (now : Time) (reportID : String)

/-- The alert after one method call (the error, if any, is dropped). -/
def AlertCall.apply (a : FraudAlert) : AlertCall → FraudAlert
  | .acknowledge now userID => (a.Acknowledge now userID).1
  | .startInvestigation now => (a.StartInvestigation now).1
  | .resolve now userID resolution notes =>
      (a.Resolve now userID resolution notes).1
  | .reportToNCC now reportID => a.ReportToNCC now reportID

/-- The alert after a sequence of method calls, first call first. -/
def runCalls (a : FraudAlert) : List AlertCall → FraudAlert
  | [] => a
  | c :: cs => runCalls (c.apply a) cs

/-- The statuses the alert goes through: the one it starts in, then the one
after each call. -/
def statusTrace (a : FraudAlert) : List AlertCall → List AlertStatus
  | [] => [a.status]
  | c :: cs => a.status :: statusTrace (c.apply a) cs

/-! ## call.go and fraud_handler.go -/

/-- The zero value of `uuid.UUID`. -/
def uuidNil : String := "00000000-0000-0000-0000-000000000000"

/-- The struct `model.CallEvent`. -/
structure CallEvent where
  CallID : String
  ANumber : String
  BNumber : String
  Timestamp : Time
  Status : String
  CarrierID : String
  SwitchID : String
  Direction : String
  SIPMethod : String
  UserAgent : String
  SourceIP : String
  SourcePort : Int
deriving DecidableEq

/-- The struct `model.ActiveCall`. -/
structure ActiveCall where
  CallID : String
  ANumber : String
  BNumber : String
  StartedAt : Time
  CarrierID : String
  SwitchID : String
  Status : String
deriving DecidableEq

/-- The struct `model.DisconnectRequest`. -/
structure DisconnectRequest where
  CallIDs : List String
  AlertID : String
  Reason : String
deriving DecidableEq

/-- The struct `model.DisconnectResult`. -/
structure DisconnectResult where
  CallID : String
  Success : Bool
  Error : String
deriving DecidableEq

/-- The struct `model.DisconnectResponse`. -/
structure DisconnectResponse where
  Requested : Nat
  Disconnected : Nat
  Failed : Nat
  Results : List DisconnectResult
deriving DecidableEq

/-- The Go map `map[string]*model.ActiveCall`, as an association list that
holds each key at most once. -/
abbrev Registry := List (String × ActiveCall)

/-- The map read `m[k]` with its `ok` flag. -/
def Registry.get (r : Registry) (k : String) : Option ActiveCall :=
  match r with
  | [] => none
  | (k1, v) :: rest => if k1 = k then some v else Registry.get rest k

/-- The builtin `delete(m, k)`. -/
def Registry.delete (r : Registry) (k : String) : Registry :=
  r.filter (fun e => decide (e.1 ≠ k))

/-- The map write `m[k] = v`. -/
def Registry.set (r : Registry) (k : String) (v : ActiveCall) : Registry :=
  (k, v) :: Registry.delete r k

/-- A JSON-RPC request posted to the SBC: the URL, and the `method` and
`params.callid` members of the body (`jsonrpc` is always "2.0" and `id` 1). -/
structure SbcRequest where
  url : String
  method : String
  callid : String
deriving DecidableEq

/-- What `httpClient.Post` gives back: a transport error, or a response with
its status code. -/
inductive HttpResult where
  | transportError (err : String)
  | response (StatusCode : Nat)
deriving DecidableEq

/-- What the dispatcher reads from outside the process: the environment
variable `KAMAILIO_MI_URL` and the SBC, which answers a request knowing the
requests it received before. -/
structure Env where
  kamailioURL : String
  post : List SbcRequest → SbcRequest → HttpResult

/-- The mutable part of `FraudDetectionService`: the registry and the event
buffer. `sbcRequests` is a ghost field listing the requests posted to the SBC so
far, oldest first. The locks are not modelled: calls run one after another. -/
structure FraudDetectionService where
  activeCalls : Registry
  callEventsBuffer : List CallEvent
  sbcRequests : List SbcRequest

/-- `FraudDetectionService.trackCall`. -/
def trackCall (s : FraudDetectionService) (event : CallEvent) :
    FraudDetectionService :=
  if event.Status = "ringing" ∨ event.Status = "active" then
    let call : ActiveCall :=
      { CallID := event.CallID
        ANumber := event.ANumber
        BNumber := event.BNumber
        StartedAt := event.Timestamp
        CarrierID := uuidNil
        SwitchID := event.SwitchID
        Status := event.Status }
    { s with activeCalls := Registry.set s.activeCalls event.CallID call }
  else if event.Status = "completed" ∨ event.Status = "disconnected" then
    { s with activeCalls := Registry.delete s.activeCalls event.CallID }
  else s

/-- The endpoint `disconnectCall` posts to: `KAMAILIO_MI_URL`, or the default
when the variable is empty. -/
def kamailioEndpoint (env : Env) : String :=
  if env.kamailioURL = "" then "http://kamailio-sbc:5060" else env.kamailioURL

/-- The JSON-RPC request `disconnectCall` builds for a call-id. -/
def rpcRequest (env : Env) (callID : String) : SbcRequest :=
  { url := kamailioEndpoint env ++ "/RPC", method := "dlg.end_dlg",
    callid := callID }

/-- `FraudDetectionService.disconnectCall` (`reason` is only logged). -/
def disconnectCall (env : Env) (s : FraudDetectionService)
    (callID : String) (_reason : String) :
    FraudDetectionService × DisconnectResult :=
  match Registry.get s.activeCalls callID with
  | none =>
      (s, { CallID := callID, Success := false,
            Error := "call not found or already ended" })
  | some _ =>
      let s1 := { s with sbcRequests := s.sbcRequests ++ [rpcRequest env callID] }
      match env.post s.sbcRequests (rpcRequest env callID) with
      | .transportError err =>
          (s1, { CallID := callID, Success := false,
                 Error := "switch communication error: " ++ err })
      | .response StatusCode =>
          if StatusCode = 200 then
            ({ s1 with activeCalls := Registry.delete s1.activeCalls callID },
             { CallID := callID, Success := true, Error := "" })
          else
            (s1, { CallID := callID, Success := false,
                   Error := "switch returned status " ++ toString StatusCode })

/-- The loop of `handleDisconnect` over the remaining call-ids. -/
def disconnectLoop (env : Env) (reason : String) :
    List String → FraudDetectionService → DisconnectResponse →
    FraudDetectionService × DisconnectResponse
  | [], s, response => (s, response)
  | callID :: rest, s, response =>
      let r := disconnectCall env s callID reason
      let response1 : DisconnectResponse :=
        { response with
            Results := response.Results ++ [r.2]
            Disconnected :=
              if r.2.Success then response.Disconnected + 1
              else response.Disconnected
            Failed :=
              if r.2.Success then response.Failed
              else response.Failed + 1 }
      disconnectLoop env reason rest r.1 response1

/-- The handler of `POST /fraud/disconnect` on a decoded body: `none` is the
400 reply of a failed binding (`call_ids` is `required,min=1`), `some` the 200
reply with its body. -/
def handleDisconnect (env : Env) (s : FraudDetectionService)
    (req : DisconnectRequest) :
    FraudDetectionService × Option DisconnectResponse :=
  if req.CallIDs.length < 1 then (s, none)
  else
    let out := disconnectLoop env req.Reason req.CallIDs s
      { Requested := req.CallIDs.length, Disconnected := 0, Failed := 0,
        Results := [] }
    (out.1, some out.2)

/-- Whether, in the rest of a trace, some status differs from `s` and `s`
occurs again after it. -/
def leftThenBack (s : AlertStatus) : List AlertStatus → Bool
  | [] => false
  | t :: rest => (t != s && rest.contains s) || leftThenBack s rest

/-- Whether the trace holds status `s`, later a different status, and later
`s` again: the alert came back to a status it had held and left. -/
def comesBackTo (s : AlertStatus) : List AlertStatus → Bool
  | [] => false
  | t :: rest => (t == s && leftThenBack s rest) || comesBackTo s rest

/-- Position of a status in the workflow; resolved and reported_ncc share the
last position. -/
def statusRank : AlertStatus → Nat
  | .AlertStatusPending => 0
  | .AlertStatusAcknowledged => 1
  | .AlertStatusInvestigating => 2
  | .AlertStatusResolved => 3
  | .AlertStatusReportedNCC => 3

/-- The workflow fields that go with the current status are set (non-nil):
acknowledged-by and acknowledged-at when acknowledged; resolution, resolved-by
and resolved-at when resolved. -/
def WorkflowFieldsSet (a : FraudAlert) : Prop :=
  (a.status = AlertStatus.AlertStatusAcknowledged →
    a.acknowledgedBy.isSome = true ∧ a.acknowledgedAt.isSome = true) ∧
  (a.status = AlertStatus.AlertStatusResolved →
    a.resolution.isSome = true ∧ a.resolvedBy.isSome = true ∧
    a.resolvedAt.isSome = true)

/-- A service that has seen no event and sent no request. -/
def emptyService : FraudDetectionService :=
  { activeCalls := [], callEventsBuffer := [], sbcRequests := [] }

/-- An event of call "X" with the given status, used to instantiate the
statements below. -/
def sampleEvent (status : String) : CallEvent :=
  { CallID := "X", ANumber := "+2348010000001", BNumber := "+2348099999999",
    Timestamp := 7, Status := status, CarrierID := uuidNil, SwitchID := "sw-1",
    Direction := "inbound", SIPMethod := "INVITE", UserAgent := "",
    SourceIP := "10.1.2.3", SourcePort := 5060 }

/-- An environment without `KAMAILIO_MI_URL` whose SBC gives the same answer to
every request. -/
def sbcAnswering (r : HttpResult) : Env :=
  { kamailioURL := "", post := fun _ _ => r }

/-- A concrete alert, used to instantiate the statements below: the one built
by `TestAlertWorkflow` (confidence 0.85). -/
def sampleAlert : FraudAlert :=
  NewFraudAlert "a-1" 100 "call-001" "CLI_MASKING" "+2348012345678"
    "+2348098765432" "192.168.1.1" "gw-001"
    (.finite (7656119366529843 / 9007199254740992)) "sliding_window" []

/-! ## fraud_handler.go: event submission and the buffer -/

/-- The struct `model.CallEventCreate`; the zero `time.Time` is instant 0. -/
structure CallEventCreate where
  CallID : String
  ANumber : String
  BNumber : String
  Timestamp : Time
  Status : String
  CarrierID : String
  SwitchID : String
  Direction : String
  SIPMethod : String
  SourceIP : String
deriving DecidableEq

/-- The `model.CallEvent` both handlers build from a request; `fallback` is the
timestamp used when the request has none (`Timestamp.IsZero()`). The fields not
listed in the source literal keep their zero values. -/
def CallEventCreate.toEvent (req : CallEventCreate) (fallback : Time) :
    CallEvent :=
  { CallID := req.CallID
    ANumber := req.ANumber
    BNumber := req.BNumber
    Timestamp := if req.Timestamp = 0 then fallback else req.Timestamp
    Status := req.Status
    CarrierID := uuidNil
    SwitchID := req.SwitchID
    Direction := req.Direction
    SIPMethod := req.SIPMethod
    UserAgent := ""
    SourceIP := req.SourceIP
    SourcePort := 0 }

/-- What `handleCallEvent` starts besides updating the service: whether it
spawns `flushBuffer` (`shouldFlush`) and the event it spawns `sendToLumaDB`
for, if any. -/
structure EventEffects where
  shouldFlush : Bool
  sentNow : Option CallEvent
deriving DecidableEq

/-- The handler of `POST /fraud/events` after a successful binding of the body
(a failed binding replies 400 and touches nothing); `now` is the clock. -/
def handleCallEvent (s : FraudDetectionService) (now : Time)
    (req : CallEventCreate) : FraudDetectionService × EventEffects :=
  let event := req.toEvent now
  let s1 := trackCall s event
  let s2 := { s1 with callEventsBuffer := s1.callEventsBuffer ++ [event] }
  (s2,
   { shouldFlush := decide (s2.callEventsBuffer.length ≥ 50)
     sentNow :=
       if event.Status = "active" ∨ event.Status = "ringing" then some event
       else none })

/-- The loop of `handleCallEventBatch` over the remaining requests, with the
running `processed` count. -/
def batchLoop (now : Time) :
    List CallEventCreate → FraudDetectionService → Nat →
    FraudDetectionService × Nat
  | [], s, processed => (s, processed)
  | req :: rest, s, processed =>
      let event := req.toEvent now
      let s1 := trackCall s event
      let s2 := { s1 with callEventsBuffer := s1.callEventsBuffer ++ [event] }
      batchLoop now rest s2 (processed + 1)

/-- The handler of `POST /fraud/events/batch` after a successful binding: the
service afterwards and the `processed` count of the reply. It always spawns
`flushBuffer`. -/
def handleCallEventBatch (s : FraudDetectionService) (now : Time)
    (events : List CallEventCreate) : FraudDetectionService × Nat :=
  batchLoop now events s 0

/-- `FraudDetectionService.flushBuffer`. `Marshal` stands for `json.Marshal` on
the map holding the batch: the payload, or `none` when it returns an error (it
does on a timestamp that cannot be written, such as one with a zone offset of 24
hours, which decoding a request accepts). `post` is the detector answering the
POST of a payload to `/acm/calls/batch`. The buffer is reset before the batch is
encoded. Besides the service afterwards, the result gives the batch that was
posted with the answer it got, or `none` when nothing was posted. The errors and
the answer are only logged. -/
def flushBuffer (Marshal : List CallEvent → Option String)
    (post : String → HttpResult) (s : FraudDetectionService) :
    FraudDetectionService × Option (List CallEvent × HttpResult) :=
  if s.callEventsBuffer.length = 0 then (s, none)
  else
    let events := s.callEventsBuffer
    let s1 := { s with callEventsBuffer := [] }
    match Marshal events with
    | none => (s1, none)
    | some payload => (s1, some (events, post payload))

/-- Whether `flushBuffer` takes the detector's answer for a success: status OK
or Accepted (anything else is logged as a warning). -/
def batchAccepted : HttpResult → Bool
  | .transportError _ => false
  | .response StatusCode => decide (StatusCode = 200 ∨ StatusCode = 202)

/-- One submission to the buffer: a single event or a batch, with the clock
reading of the handler. -/
inductive Submission where
  | single (now : Time) (req : CallEventCreate)
  | batch (now : Time) (events : List CallEventCreate)

/-- The service after a submission. -/
def Submission.apply (s : FraudDetectionService) :
    Submission → FraudDetectionService
  | .single now req => (handleCallEvent s now req).1
  | .batch now events => (handleCallEventBatch s now events).1

/-- The service after a sequence of submissions with no flush in between. -/
def submitAll (s : FraudDetectionService) :
    List Submission → FraudDetectionService
  | [] => s
  | x :: rest => submitAll (x.apply s) rest

/-- The events of a submission, in the order of the request. -/
def Submission.events : Submission → List CallEvent
  | .single now req => [req.toEvent now]
  | .batch now events => events.map (fun req => req.toEvent now)

/-- The events of a sequence of submissions, in submission order. -/
def submittedEvents : List Submission → List CallEvent
  | [] => []
  | x :: rest => x.events ++ submittedEvents rest

/-- The batch a flush posted; empty when it posted nothing. -/
def postedBatch (out : FraudDetectionService ×
    Option (List CallEvent × HttpResult)) : List CallEvent :=
  match out.2 with
  | none => []
  | some (events, _) => events

/-- A request for call "X" with the given status and timestamp, used to
instantiate the statements below. -/
def sampleRequest (status : String) (timestamp : Time) : CallEventCreate :=
  { CallID := "X", ANumber := "+2348010000001", BNumber := "+2348099999999",
    Timestamp := timestamp, Status := status, CarrierID := "",
    SwitchID := "sw-1", Direction := "inbound", SIPMethod := "INVITE",
    SourceIP := "10.1.2.3" }

/-- A detector that cannot be reached. -/
def detectorDown : String → HttpResult :=
  fun _ => HttpResult.transportError "connection refused"

/-- An encoder of batches, used to instantiate the statements below: it fails on
a batch holding an event whose timestamp is among `refused`, and otherwise gives
a payload naming the call-ids of the batch. -/
def sampleMarshal (refused : List Time) (events : List CallEvent) :
    Option String :=
  if events.any (fun e => refused.contains e.Timestamp) then none
  else some (String.intercalate "," (events.map (fun e => e.CallID)))

/-! ## gateway.go -/

/-- Domain errors of gateway.go. -/
inductive GatewayError where
  | ErrInvalidIPAddress
  | ErrInvalidGatewayType
  | ErrInvalidCarrierName
  | ErrGatewayAlreadyActive
  | ErrGatewayNotActive
  | ErrGatewayBlacklisted
deriving DecidableEq, Repr

/-- The type `GatewayType`, a Go string type. -/
abbrev GatewayType := String

def GatewayTypeLocal : GatewayType := "local"
def GatewayTypeInternational : GatewayType := "international"
def GatewayTypeTransit : GatewayType := "transit"

/-- `GatewayType.IsValid`. -/
def GatewayType.IsValid (t : GatewayType) : Bool :=
  decide (t = GatewayTypeLocal ∨ t = GatewayTypeInternational ∨
    t = GatewayTypeTransit)

/-- The type `net.IP`: a byte slice. -/
abbrev IP := List Nat

/-- The struct `Gateway`, field for field; Go `int` values are integers (they
are only compared and stored here). -/
structure Gateway where
  id : String
  name : String
  ipAddress : IP
  carrierName : String
  gatewayType : GatewayType
  fraudThreshold : Float64
  cpmLimit : Int
  acdThreshold : Float64
  isActive : Bool
  isBlacklisted : Bool
  blacklistReason : String
  blacklistExpiresAt : Option Time
  createdAt : Time
  updatedAt : Time
  callsToday : Int
  fraudCount : Int
deriving DecidableEq

/-- The float64 constant `0.8` (nearest double, 3602879701896397 / 2^52). -/
def c0_8 : Float64 := .finite (3602879701896397 / 4503599627370496)

/-- `NewGateway`. `ParseIP` stands for `net.ParseIP` of the standard library
(`none` is its nil result) and `now` is the clock reading. -/
def NewGateway (ParseIP : String → Option IP) (now : Time)
    (id name ipAddress carrierName : String) (gatewayType : GatewayType) :
    Except GatewayError Gateway :=
  match ParseIP ipAddress with
  | none => .error GatewayError.ErrInvalidIPAddress
  | some ip =>
      if ! gatewayType.IsValid then .error GatewayError.ErrInvalidGatewayType
      else if carrierName = "" then .error GatewayError.ErrInvalidCarrierName
      else
        .ok { id := id
              name := name
              ipAddress := ip
              carrierName := carrierName
              gatewayType := gatewayType
              fraudThreshold := c0_8
              cpmLimit := 60
              acdThreshold := .finite 10
              isActive := true
              isBlacklisted := false
              blacklistReason := ""
              blacklistExpiresAt := none
              createdAt := now
              updatedAt := now
              callsToday := 0
              fraudCount := 0 }

/-- The value `UpdateThresholds` stores for a supplied fraud threshold. -/
def clampFraudThreshold (t : Float64) : Float64 :=
  if t.lt (.finite 0) then .finite 0
  else if t.gt (.finite 1) then .finite 1
  else t

/-- The value `UpdateThresholds` stores for a supplied CPM limit. -/
def clampCPMLimit (c : Int) : Int :=
  if c < 1 then 1
  else if c > 1000 then 1000
  else c

/-- The value `UpdateThresholds` stores for a supplied ACD threshold. -/
def clampACDThreshold (a : Float64) : Float64 :=
  if a.lt (.finite 1) then .finite 1 else a

/-- `Gateway.UpdateThresholds`; a nil pointer is `none`. -/
def Gateway.UpdateThresholds (g : Gateway) (now : Time)
    (fraudThreshold : Option Float64) (cpmLimit : Option Int)
    (acdThreshold : Option Float64) : Gateway :=
  { g with
      fraudThreshold :=
        match fraudThreshold with
        | some t => clampFraudThreshold t
        | none => g.fraudThreshold
      cpmLimit :=
        match cpmLimit with
        | some c => clampCPMLimit c
        | none => g.cpmLimit
      acdThreshold :=
        match acdThreshold with
        | some a => clampACDThreshold a
        | none => g.acdThreshold
      updatedAt := now }

/-- `Gateway.UpdateName`. -/
def Gateway.UpdateName (g : Gateway) (now : Time) (name : String) : Gateway :=
  if name ≠ "" then { g with name := name, updatedAt := now } else g

/-- `Gateway.UpdateCarrier`. -/
def Gateway.UpdateCarrier (g : Gateway) (now : Time) (carrierName : String) :
    Gateway :=
  if carrierName ≠ "" then { g with carrierName := carrierName, updatedAt := now }
  else g

/-- `Gateway.Activate`. -/
def Gateway.Activate (g : Gateway) (now : Time) :
    Gateway × Option GatewayError :=
  if g.isActive then (g, some GatewayError.ErrGatewayAlreadyActive)
  else if g.isBlacklisted then (g, some GatewayError.ErrGatewayBlacklisted)
  else ({ g with isActive := true, updatedAt := now }, none)

/-- `Gateway.Deactivate`. -/
def Gateway.Deactivate (g : Gateway) (now : Time) :
    Gateway × Option GatewayError :=
  if ! g.isActive then (g, some GatewayError.ErrGatewayNotActive)
  else ({ g with isActive := false, updatedAt := now }, none)

/-- `Gateway.Blacklist`. -/
def Gateway.Blacklist (g : Gateway) (now : Time) (reason : String)
    (expiresAt : Option Time) : Gateway :=
  { g with
      isBlacklisted := true
      blacklistReason := reason
      blacklistExpiresAt := expiresAt
      isActive := false
      updatedAt := now }

/-- `Gateway.Unblacklist`. -/
def Gateway.Unblacklist (g : Gateway) (now : Time) : Gateway :=
  { g with
      isBlacklisted := false
      blacklistReason := ""
      blacklistExpiresAt := none
      updatedAt := now }

/-- `Gateway.SetStatistics`. -/
def Gateway.SetStatistics (g : Gateway) (callsToday fraudCount : Int) :
    Gateway :=
  { g with callsToday := callsToday, fraudCount := fraudCount }

/-- `Gateway.ExceedsCPMLimit`. -/
def Gateway.ExceedsCPMLimit (g : Gateway) (cpm : Int) : Bool :=
  decide (cpm > g.cpmLimit)

/-- `Gateway.IsACDSuspicious`. -/
def Gateway.IsACDSuspicious (g : Gateway) (acd : Float64) : Bool :=
  acd.lt g.acdThreshold

/-- One call of a state-changing method of the gateway, with its arguments and
the clock reading. -/
inductive GatewayCall where
  | updateThresholds (now : Time) (fraudThreshold : Option Float64)
      (cpmLimit : Option Int) (acdThreshold : Option Float64)
  | updateName (now : Time) (name : String)
  | updateCarrier (now : Time) (carrierName : String)
  | activate (now : Time)
  | deactivate (now : Time)
  | blacklist (now : Time) (reason : String) (expiresAt : Option Time)
  | unblacklist (now : Time)
  | setStatistics (callsToday fraudCount : Int)

/-- The gateway after one method call (the error, if any, is dropped). -/
def GatewayCall.apply (g : Gateway) : GatewayCall → Gateway
  | .updateThresholds now f c a => g.UpdateThresholds now f c a
  | .updateName now name => g.UpdateName now name
  | .updateCarrier now carrierName => g.UpdateCarrier now carrierName
  | .activate now => (g.Activate now).1
  | .deactivate now => (g.Deactivate now).1
  | .blacklist now reason expiresAt => g.Blacklist now reason expiresAt
  | .unblacklist now => g.Unblacklist now
  | .setStatistics callsToday fraudCount => g.SetStatistics callsToday fraudCount

/-- The gateway after a sequence of method calls, first call first. -/
def runGatewayCalls (g : Gateway) : List GatewayCall → Gateway
  | [] => g
  | c :: cs => runGatewayCalls (c.apply g) cs

/-- An IP parser that knows one address, used to instantiate the statements
below. -/
def sampleParseIP (ipAddress : String) : Option IP :=
  if ipAddress = "192.168.1.1" then some [192, 168, 1, 1] else none

/-- The gateway of the entity tests as `NewGateway` returns it. -/
def sampleGateway : Gateway :=
  { id := "gw-001", name := "Test", ipAddress := [192, 168, 1, 1],
    carrierName := "MTN", gatewayType := GatewayTypeLocal,
    fraudThreshold := c0_8, cpmLimit := 60, acdThreshold := .finite 10,
    isActive := true, isBlacklisted := false, blacklistReason := "",
    blacklistExpiresAt := none, createdAt := 100, updatedAt := 100,
    callsToday := 0, fraudCount := 0 }

/-! ## mnp.go -/

/-- A Go string as `NormalizeMSISDN` uses it: a sequence of bytes, indexed and
sliced by byte. A byte is a natural number. -/
abbrev GoString := List Nat

/-- The bytes of a string literal written in ASCII. -/
def ascii (s : String) : GoString := s.data.map Char.toNat

/-- Whether a byte is matched by the pattern `[\s-]`: tab, line feed, form feed,
carriage return, space, or the dash. -/
def isSpaceOrDash (b : Nat) : Bool :=
  decide (b = 9 ∨ b = 10 ∨ b = 12 ∨ b = 13 ∨ b = 32 ∨ b = 45)

/-- The call `ReplaceAllString(msisdn, "")` of the pattern `[\s-]`: the bytes it
matches are removed, the others are kept in order. -/
def stripSpacesAndDashes (msisdn : GoString) : GoString :=
  msisdn.filter (fun b => ! isSpaceOrDash b)

/-- Whether a byte is matched by `[0-9]`. -/
def isDigit (b : Nat) : Bool := decide (48 ≤ b ∧ b ≤ 57)

/-- `NormalizeMSISDN`; `none` is a run-time panic. `cleaned[0]` panics on an
empty `cleaned`, and `cleaned[0:3]`, evaluated when the first byte is not '+'
(byte 43), panics when `cleaned` has fewer than three bytes. Byte 48 is '0' and
bytes 50, 51, 52 are "234". -/
def NormalizeMSISDN (msisdn : GoString) : Option GoString :=
  if msisdn.length = 0 then some msisdn
  else
    match stripSpacesAndDashes msisdn with
    | [] => none
    | c0 :: rest =>
        if c0 ≠ 43 ∧ (c0 :: rest).length < 3 then none
        else if c0 ≠ 43 ∧ (c0 :: rest).take 3 = [50, 51, 52] then
          some (43 :: c0 :: rest)
        else if c0 = 48 ∧ (c0 :: rest).length = 11 then
          some ([43, 50, 51, 52] ++ rest)
        else some (c0 :: rest)

/-- Whether a string is "234" followed by exactly ten digits. -/
def is234ThenTenDigits (s : GoString) : Bool :=
  decide (s.take 3 = [50, 51, 52]) && decide ((s.drop 3).length = 10) &&
    (s.drop 3).all isDigit

/-- `IsValidMSISDN`: a match of the whole string against the pattern
`^\+?234[0-9]{10}$`, an optional '+' then "234" then ten digits. -/
def IsValidMSISDN (msisdn : GoString) : Bool :=
  match msisdn with
  | 43 :: rest => is234ThenTenDigits rest
  | _ => is234ThenTenDigits msisdn

/-- Domain errors of mnp.go. -/
inductive MNPError where
  | ErrInvalidMSISDN
  | ErrMNPRecordNotFound
deriving DecidableEq, Repr

/-- The type `PortingStatus`, a Go string type. -/
abbrev PortingStatus := String

def PortingStatusActive : PortingStatus := "active"
def PortingStatusPending : PortingStatus := "pending"
def PortingStatusExpired : PortingStatus := "expired"

/-- The struct `MNPRecord`. -/
structure MNPRecord where
  msisdn : GoString
  originalNetwork : String
  currentNetwork : String
  portedDate : Time
  status : PortingStatus
  npcCode : String
  createdAt : Time
  updatedAt : Time
deriving DecidableEq

/-- `NewMNPRecord`; `none` is a run-time panic (of `NormalizeMSISDN`), `error`
the returned error with no record, `ok` the record. -/
def NewMNPRecord (now : Time) (msisdn : GoString)
    (originalNetwork currentNetwork npcCode : String) :
    Option (Except MNPError MNPRecord) :=
  if ! IsValidMSISDN msisdn then some (.error MNPError.ErrInvalidMSISDN)
  else
    match NormalizeMSISDN msisdn with
    | none => none
    | some normalized =>
        some (.ok { msisdn := normalized
                    originalNetwork := originalNetwork
                    currentNetwork := currentNetwork
                    portedDate := now
                    status := PortingStatusActive
                    npcCode := npcCode
                    createdAt := now
                    updatedAt := now })

/-! ## alert.go: blacklist entries; fraud_service.go: AddToBlacklist -/

/-- The struct `Blacklist`. -/
structure Blacklist where
  ID : String
  EntryType : String
  Value : String
  Reason : String
  Source : String
  AddedBy : String
  ExpiresAt : Option Time
  CreatedAt : Time
  UpdatedAt : Time
deriving DecidableEq

/-- `NewBlacklistEntry`; `id` is the fresh uuid and `now` the clock reading. -/
def NewBlacklistEntry (id : String) (now : Time)
    (entryType value reason source addedBy : String)
    (expiresAt : Option Time) : Blacklist :=
  { ID := id, EntryType := entryType, Value := value, Reason := reason,
    Source := source, AddedBy := addedBy, ExpiresAt := expiresAt,
    CreatedAt := now, UpdatedAt := now }

/-- `Blacklist.IsExpired`; `now` is the clock reading: `now.After(expiresAt)`. -/
def Blacklist.IsExpired (b : Blacklist) (now : Time) : Bool :=
  match b.ExpiresAt with
  | none => false
  | some expiresAt => decide (expiresAt < now)

/-- The blacklist store of the tests, `MockBlacklistRepository`: a map from
entry id to entry, as an association list that holds each id at most once. -/
abbrev BlacklistStore := List (String × Blacklist)

/-- `MockBlacklistRepository.Save`: the map write `entries[entry.ID] = entry`. -/
def BlacklistStore.Save (m : BlacklistStore) (entry : Blacklist) :
    BlacklistStore :=
  (entry.ID, entry) :: m.filter (fun e => decide (e.1 ≠ entry.ID))

/-- `MockBlacklistRepository.IsBlacklisted`: some entry has the value and is not
expired at the clock reading `now`. -/
def BlacklistStore.IsBlacklisted (m : BlacklistStore) (now : Time)
    (value : String) : Bool :=
  m.any (fun e => decide (e.2.Value = value) && ! e.2.IsExpired now)

/-- `FraudService.AddToBlacklist` over the store of the tests, whose calls
return no error: the store afterwards and the error message, if any. `now` is
the clock reading of the check, `id` and `created` the uuid and clock reading
of `NewBlacklistEntry`. -/
def AddToBlacklist (m : BlacklistStore) (now : Time) (id : String)
    (created : Time) (entryType value reason addedBy : String) :
    BlacklistStore × Option String :=
  if m.IsBlacklisted now value then (m, some "entry already blacklisted")
  else
    (m.Save (NewBlacklistEntry id created entryType value reason "manual"
      addedBy none), none)

/-- One call of `AddToBlacklist`, with its arguments and what it reads from the
clock and the uuid generator. -/
structure AddCall where
  now : Time
  id : String
  created : Time
  entryType : String
  value : String
  reason : String
  addedBy : String

/-- The store after one call. -/
def AddCall.apply (m : BlacklistStore) (c : AddCall) : BlacklistStore :=
  (AddToBlacklist m c.now c.id c.created c.entryType c.value c.reason
    c.addedBy).1

/-- The store after a sequence of calls, first call first. -/
def runAdds (m : BlacklistStore) : List AddCall → BlacklistStore
  | [] => m
  | c :: cs => runAdds (c.apply m) cs

/-- The number of entries of the store that have the value and are not expired
at instant `now`: its active entries for that value. -/
def activeEntries (m : BlacklistStore) (now : Time) (value : String) : Nat :=
  (m.filter (fun e => decide (e.2.Value = value) && ! e.2.IsExpired now)).length

/-- Whether the instants of the calls never go back, starting from `t0`. -/
def clockMonotone (t0 : Time) : List AddCall → Bool
  | [] => true
  | c :: cs => decide (t0 ≤ c.now) && clockMonotone c.now cs

/-- The two calls of `TestFraudServiceBlacklist`. -/
def sampleAdds : List AddCall :=
  [{ now := 1, id := "b-1", created := 1, entryType := "msisdn",
     value := "+2348012345678", reason := "Fraud", addedBy := "admin" },
   { now := 2, id := "b-2", created := 2, entryType := "msisdn",
     value := "+2348012345678", reason := "Duplicate", addedBy := "admin" }]

/-! ## rbac_service.go: CheckAccess -/

/-- The struct `sql.NullString`. -/
structure NullString where
  String : String
  Valid : Bool
deriving DecidableEq

/-- The rates and the cost of the struct `RevenueCalculator`. -/
structure RevenueCalculator where
  InterconnectRate : ℚ
  InternationalRate : ℚ
  LocalRate : ℚ
  OperationalCostPerDay : ℚ

/-- `NewRevenueCalculator`: the rates 8.50, 45.00 and 5.50 and the daily cost. -/
def NewRevenueCalculator : RevenueCalculator :=
  { InterconnectRate := 17 / 2, InternationalRate := 45, LocalRate := 11 / 2,
    OperationalCostPerDay := 150000 }

/-- `RevenueCalculator.determineRate`. -/
def RevenueCalculator.determineRate (rc : RevenueCalculator)
    (country : NullString) : ℚ :=
  if ! country.Valid then rc.InterconnectRate
  else if country.String = "NGA" ∨ country.String = "234" then rc.LocalRate
  else rc.InternationalRate

/-- One row of the fraud-breakdown query of `calculateImpact`, as scanned. -/
structure BreakdownRow where
  eventType : String
  callCount : Int
  minutes : ℚ
  country : NullString

/-- The Go map `map[string]float64` of `RevenueByFraudType`, as an association
list that holds each key at most once. -/
abbrev RevenueMap := List (String × ℚ)

/-- The map write `m[k] = v`. -/
def RevenueMap.set (m : RevenueMap) (k : String) (v : ℚ) : RevenueMap :=
  (k, v) :: m.filter (fun e => decide (e.1 ≠ k))

/-- The sum of the values of the map. -/
def RevenueMap.total (m : RevenueMap) : ℚ := (m.map (fun e => e.2)).sum

/-- The loop of `calculateImpact` over the rows of the fraud breakdown: the
fields `RevenueByFraudType` and `RevenueProtected` afterwards. -/
def breakdownLoop (rc : RevenueCalculator) :
    List BreakdownRow → RevenueMap → ℚ → RevenueMap × ℚ
  | [], RevenueByFraudType, RevenueProtected =>
      (RevenueByFraudType, RevenueProtected)
  | row :: rest, RevenueByFraudType, RevenueProtected =>
      let rate := rc.determineRate row.country
      let revenue := row.minutes * rate
      breakdownLoop rc rest (RevenueMap.set RevenueByFraudType row.eventType revenue)
        (RevenueProtected + revenue)

/-- The breakdown `calculateImpact` computes from the rows the store returns,
starting from the empty map and zero. -/
def revenueBreakdown (rc : RevenueCalculator) (rows : List BreakdownRow) :
    RevenueMap × ℚ :=
  breakdownLoop rc rows [] 0

/-- Two rows of the same fraud type from two countries, as the query, grouped
by event type and source country, returns them. -/
def sampleRows : List BreakdownRow :=
  [{ eventType := "SIMBOX_DETECTED", callCount := 5, minutes := 10,
     country := { String := "NGA", Valid := true } },
   { eventType := "SIMBOX_DETECTED", callCount := 5, minutes := 10,
     country := { String := "USA", Valid := true } }]

/-- `ThreatPredictor.calculateProbability`; 0.5, 0.95 and 1.2 are 1/2, 19/20
and 6/5. -/
def calculateProbability (historical : List Int) (expectedCount : Int) : ℚ :=
  if historical.length = 0 then 1 / 2
  else
    let nonZeroDays := (historical.filter (fun count => decide (count > 0))).length
    let baseProbability : ℚ := (nonZeroDays : ℚ) / (historical.length : ℚ)
    if expectedCount > 10 then min (19 / 20) (baseProbability * (6 / 5))
    else baseProbability

/-! ## auth_service.go: validatePassword -/

/-- The four flags of `validatePassword`. -/
structure PasswordFlags where
  hasUpper : Bool
  hasLower : Bool
  hasNumber : Bool
  hasSpecial : Bool
deriving DecidableEq

/-- Whether a code point is one of the characters `!@#$%^&*`. -/
def isSpecialChar (char : Nat) : Bool :=
  decide (char = 33 ∨ char = 64 ∨ char = 35 ∨ char = 36 ∨ char = 37 ∨
    char = 94 ∨ char = 38 ∨ char = 42)

/-- The switch in the loop of `validatePassword`, on one code point: 'A' to 'Z'
are 65 to 90, 'a' to 'z' 97 to 122, '0' to '9' 48 to 57. -/
def passwordStep (flags : PasswordFlags) (char : Nat) : PasswordFlags :=
  if 65 ≤ char ∧ char ≤ 90 then { flags with hasUpper := true }
  else if 97 ≤ char ∧ char ≤ 122 then { flags with hasLower := true }
  else if 48 ≤ char ∧ char ≤ 57 then { flags with hasNumber := true }
  else if isSpecialChar char then { flags with hasSpecial := true }
  else flags

/-- `AuthService.validatePassword`: the message of the returned error, `none`
for nil. The password is a string of valid UTF-8: `len` is its size in bytes and
the loop ranges over its code points. -/
def validatePassword (password : String) : Option String :=
  if password.utf8ByteSize < 12 then
    some "password must be at least 12 characters"
  else
    let flags := (password.data.map Char.toNat).foldl passwordStep
      { hasUpper := false, hasLower := false, hasNumber := false,
        hasSpecial := false }
    if ! flags.hasUpper then
      some "password must contain at least one uppercase letter"
    else if ! flags.hasLower then
      some "password must contain at least one lowercase letter"
    else if ! flags.hasNumber then
      some "password must contain at least one number"
    else if ! flags.hasSpecial then
      some "password must contain at least one special character"
    else none

/-! ## Severity derivation -/

theorem Float64.ge_finite_of_le (c : Float64) {x y : ℚ} (hxy : y ≤ x)
    (h : c.ge (.finite x) = true) : c.ge (.finite y) = true := by
  cases c with
  | nan => simp [Float64.ge] at h
  | negInf => simp [Float64.ge] at h
  | posInf => simp [Float64.ge]
  | finite q =>
    simp only [Float64.ge, decide_eq_true_eq] at h ⊢
    exact le_trans hxy h

theorem ge_c0_75_of_ge_c0_9 (c : Float64) (h : c.ge c0_9 = true) :
    c.ge c0_75 = true :=
  Float64.ge_finite_of_le c (by norm_num) h

theorem ge_c0_5_of_ge_c0_75 (c : Float64) (h : c.ge c0_75 = true) :
    c.ge c0_5 = true :=
  Float64.ge_finite_of_le c (by norm_num) h

theorem ge_c0_9_of_ge_c0_95 (c : Float64) (h : c.ge c0_95 = true) :
    c.ge c0_9 = true :=
  Float64.ge_finite_of_le c (by norm_num) h

/-- The four cases of `TestAlertSeverityCalculation`: the doubles 0.95, 0.80,
0.60 and 0.30 give critical, high, medium and low. -/
theorem severityOf_test_cases :
    severityOf (.finite (4278419646001971 / 4503599627370496))
      = Severity.SeverityCritical ∧
    severityOf (.finite (3602879701896397 / 4503599627370496))
      = Severity.SeverityHigh ∧
    severityOf (.finite (5404319552844595 / 9007199254740992))
      = Severity.SeverityMedium ∧
    severityOf (.finite (5404319552844595 / 18014398509481984))
      = Severity.SeverityLow := by
  refine ⟨?_, ?_, ?_, ?_⟩ <;>
    simp only [severityOf, Float64.ge, c0_9, c0_75, c0_5] <;> norm_num

/-- C1: the alert built by `NewFraudAlert` with confidence `c` has severity
critical exactly when `c >= 0.9`, high exactly when that fails and `c >= 0.75`,
medium exactly when that fails and `c >= 0.5`, and low exactly when `c >= 0.5`
fails (a NaN confidence included). -/
theorem C1_severity_from_confidence (id : String) (now : Time)
    (callID eventType aNumber bNumber sourceIP gatewayID : String)
    (c : Float64) (detectionMethod : String) (matchedPatterns : List String) :
    ((NewFraudAlert id now callID eventType aNumber bNumber sourceIP gatewayID
        c detectionMethod matchedPatterns).severity = Severity.SeverityCritical
      ↔ c.ge c0_9 = true) ∧
    ((NewFraudAlert id now callID eventType aNumber bNumber sourceIP gatewayID
        c detectionMethod matchedPatterns).severity = Severity.SeverityHigh
      ↔ c.ge c0_9 = false ∧ c.ge c0_75 = true) ∧
    ((NewFraudAlert id now callID eventType aNumber bNumber sourceIP gatewayID
        c detectionMethod matchedPatterns).severity = Severity.SeverityMedium
      ↔ c.ge c0_75 = false ∧ c.ge c0_5 = true) ∧
    ((NewFraudAlert id now callID eventType aNumber bNumber sourceIP gatewayID
        c detectionMethod matchedPatterns).severity = Severity.SeverityLow
      ↔ c.ge c0_5 = false) := by
  have h1 := ge_c0_75_of_ge_c0_9 c
  have h2 := ge_c0_5_of_ge_c0_75 c
  simp only [NewFraudAlert, severityOf]
  cases h9 : c.ge c0_9 <;> cases h75 : c.ge c0_75 <;> cases h5 : c.ge c0_5 <;>
    simp_all

/-! ## Acknowledge and Resolve -/

/-- C2: on a pending alert `Acknowledge(u)` succeeds and sets status
acknowledged, acknowledged-by `u` and acknowledged-at; a following
`Acknowledge(v)` fails with `ErrAlertAlreadyAcknowledged` and returns the alert
as it was. -/
theorem C2_acknowledge_twice (a : FraudAlert) (u v : String) (t1 t2 : Time)
    (h : a.status = AlertStatus.AlertStatusPending) :
    (a.Acknowledge t1 u).2 = none ∧
    (a.Acknowledge t1 u).1.status = AlertStatus.AlertStatusAcknowledged ∧
    (a.Acknowledge t1 u).1.acknowledgedBy = some u ∧
    (a.Acknowledge t1 u).1.acknowledgedAt = some t1 ∧
    (a.Acknowledge t1 u).1.Acknowledge t2 v
      = ((a.Acknowledge t1 u).1, some AlertError.ErrAlertAlreadyAcknowledged) := by
  simp [FraudAlert.Acknowledge, h]

/-- The statement of C2 on the alert of `TestAlertWorkflow`, acknowledged by
"analyst-1" and then by "analyst-2". -/
theorem C2_acknowledge_twice_witness :
    sampleAlert.status = AlertStatus.AlertStatusPending ∧
    (sampleAlert.Acknowledge 101 "analyst-1").2 = none ∧
    (sampleAlert.Acknowledge 101 "analyst-1").1.status
      = AlertStatus.AlertStatusAcknowledged ∧
    (sampleAlert.Acknowledge 101 "analyst-1").1.acknowledgedBy
      = some "analyst-1" ∧
    (sampleAlert.Acknowledge 101 "analyst-1").1.acknowledgedAt = some 101 ∧
    (sampleAlert.Acknowledge 101 "analyst-1").1.Acknowledge 102 "analyst-2"
      = ((sampleAlert.Acknowledge 101 "analyst-1").1,
         some AlertError.ErrAlertAlreadyAcknowledged) :=
  ⟨rfl, C2_acknowledge_twice sampleAlert "analyst-1" "analyst-2" 101 102 rfl⟩

/-- C3: on a newly created alert `Acknowledge(u1)` succeeds and gives status
acknowledged, then `Resolve(u1, confirmed_fraud, notes)` succeeds and gives
status resolved; a second `Resolve`, whatever its arguments, fails with
`ErrAlertAlreadyResolved` and returns the alert as it was. -/
theorem C3_acknowledge_resolve_resolve (id : String) (now : Time)
    (callID eventType aNumber bNumber sourceIP gatewayID : String)
    (c : Float64) (detectionMethod : String) (matchedPatterns : List String)
    (u1 notes : String) (t1 t2 t3 : Time) (u2 : String)
    (resolution2 : ResolutionType) (notes2 : String) :
    ((NewFraudAlert id now callID eventType aNumber bNumber sourceIP gatewayID
        c detectionMethod matchedPatterns).Acknowledge t1 u1).2 = none ∧
    ((NewFraudAlert id now callID eventType aNumber bNumber sourceIP gatewayID
        c detectionMethod matchedPatterns).Acknowledge t1 u1).1.status
      = AlertStatus.AlertStatusAcknowledged ∧
    (((NewFraudAlert id now callID eventType aNumber bNumber sourceIP gatewayID
        c detectionMethod matchedPatterns).Acknowledge t1 u1).1.Resolve
          t2 u1 ResolutionConfirmedFraud notes).2 = none ∧
    (((NewFraudAlert id now callID eventType aNumber bNumber sourceIP gatewayID
        c detectionMethod matchedPatterns).Acknowledge t1 u1).1.Resolve
          t2 u1 ResolutionConfirmedFraud notes).1.status
      = AlertStatus.AlertStatusResolved ∧
    (((NewFraudAlert id now callID eventType aNumber bNumber sourceIP gatewayID
        c detectionMethod matchedPatterns).Acknowledge t1 u1).1.Resolve
          t2 u1 ResolutionConfirmedFraud notes).1.Resolve t3 u2 resolution2 notes2
      = ((((NewFraudAlert id now callID eventType aNumber bNumber sourceIP
              gatewayID c detectionMethod matchedPatterns).Acknowledge
            t1 u1).1.Resolve t2 u1 ResolutionConfirmedFraud notes).1,
         some AlertError.ErrAlertAlreadyResolved) := by
  simp [NewFraudAlert, FraudAlert.Acknowledge, FraudAlert.Resolve]

/-! ## Status transitions -/

/-! `comesBackTo s` says what it should: the trace splits around an occurrence
of `s`, a later status other than `s`, and a still later occurrence of `s`. -/

theorem leftThenBack_iff (s : AlertStatus) (tr : List AlertStatus) :
    leftThenBack s tr = true
      ↔ ∃ l2 t l3 l4, t ≠ s ∧ tr = l2 ++ t :: (l3 ++ s :: l4) := by
  induction tr with
  | nil => simp [leftThenBack]
  | cons x rest ih =>
    simp only [leftThenBack, Bool.or_eq_true, Bool.and_eq_true, bne_iff_ne, ne_eq,
      List.contains_eq_any_beq, List.any_eq_true, beq_iff_eq, ih]
    constructor
    · rintro (⟨hx, y, hy, rfl⟩ | ⟨l2, t, l3, l4, ht, rfl⟩)
      · obtain ⟨l3, l4, rfl⟩ := List.append_of_mem hy
        exact ⟨[], x, l3, l4, hx, rfl⟩
      · exact ⟨x :: l2, t, l3, l4, ht, rfl⟩
    · rintro ⟨l2, t, l3, l4, ht, heq⟩
      cases l2 with
      | nil =>
        simp only [List.nil_append, List.cons.injEq] at heq
        obtain ⟨rfl, rfl⟩ := heq
        exact Or.inl ⟨ht, s, by simp, rfl⟩
      | cons y l2 =>
        simp only [List.cons_append, List.cons.injEq] at heq
        obtain ⟨rfl, rfl⟩ := heq
        exact Or.inr ⟨l2, t, l3, l4, ht, rfl⟩

theorem comesBackTo_iff (s : AlertStatus) (tr : List AlertStatus) :
    comesBackTo s tr = true
      ↔ ∃ l1 l2 t l3 l4, t ≠ s ∧
          tr = l1 ++ s :: (l2 ++ t :: (l3 ++ s :: l4)) := by
  induction tr with
  | nil => simp [comesBackTo]
  | cons x rest ih =>
    simp only [comesBackTo, Bool.or_eq_true, Bool.and_eq_true, beq_iff_eq, ih,
      leftThenBack_iff]
    constructor
    · rintro (⟨rfl, l2, t, l3, l4, ht, rfl⟩ | ⟨l1, l2, t, l3, l4, ht, rfl⟩)
      · exact ⟨[], l2, t, l3, l4, ht, rfl⟩
      · exact ⟨x :: l1, l2, t, l3, l4, ht, rfl⟩
    · rintro ⟨l1, l2, t, l3, l4, ht, heq⟩
      cases l1 with
      | nil =>
        simp only [List.nil_append, List.cons.injEq] at heq
        obtain ⟨rfl, rfl⟩ := heq
        exact Or.inl ⟨rfl, l2, t, l3, l4, ht, rfl⟩
      | cons y l1 =>
        simp only [List.cons_append, List.cons.injEq] at heq
        obtain ⟨rfl, rfl⟩ := heq
        exact Or.inr ⟨l1, l2, t, l3, l4, ht, rfl⟩
theorem statusRank_apply_le (a : FraudAlert) (c : AlertCall) :
    statusRank a.status ≤ statusRank (c.apply a).status := by
  cases c <;>
    simp only [AlertCall.apply, FraudAlert.Acknowledge,
      FraudAlert.StartInvestigation, FraudAlert.Resolve, FraudAlert.ReportToNCC]
  · by_cases h : a.status = AlertStatus.AlertStatusPending <;> simp [h, statusRank]
  · by_cases h : a.status = AlertStatus.AlertStatusAcknowledged <;>
      simp [h, statusRank]
  · by_cases h : a.status = AlertStatus.AlertStatusResolved
    · simp [h]
    · simp only [h, if_false]
      cases a.status <;> simp [statusRank]
  · cases a.status <;> simp [statusRank]

theorem statusRank_le_of_mem_statusTrace (calls : List AlertCall) :
    ∀ (a : FraudAlert) (t : AlertStatus), t ∈ statusTrace a calls →
      statusRank a.status ≤ statusRank t := by
  induction calls with
  | nil =>
    intro a t ht
    simp only [statusTrace, List.mem_singleton] at ht
    simp [ht]
  | cons c cs ih =>
    intro a t ht
    simp only [statusTrace, List.mem_cons] at ht
    rcases ht with ht | ht
    · simp [ht]
    · exact le_trans (statusRank_apply_le a c) (ih _ t ht)

theorem statusRank_eq_imp_eq (s t : AlertStatus) (hs : statusRank s ≤ 2)
    (h : statusRank t = statusRank s) : t = s := by
  cases s <;> cases t <;> simp_all [statusRank]

theorem not_mem_statusTrace_of_rank_lt (calls : List AlertCall) (a : FraudAlert)
    (s : AlertStatus) (h : statusRank s < statusRank a.status) :
    (statusTrace a calls).contains s = false := by
  by_contra hc
  have hmem : s ∈ statusTrace a calls := by simpa using hc
  have := statusRank_le_of_mem_statusTrace calls a s hmem
  omega

theorem leftThenBack_statusTrace (s : AlertStatus) (hs : statusRank s ≤ 2)
    (calls : List AlertCall) :
    ∀ a : FraudAlert, statusRank s ≤ statusRank a.status →
      leftThenBack s (statusTrace a calls) = false := by
  induction calls with
  | nil =>
    intro a _
    simp [statusTrace, leftThenBack]
  | cons c cs ih =>
    intro a ha
    have hnext : statusRank s ≤ statusRank (c.apply a).status :=
      le_trans ha (statusRank_apply_le a c)
    simp only [statusTrace, leftThenBack, ih _ hnext, Bool.or_false,
      Bool.and_eq_false_imp, bne_iff_ne, ne_eq]
    intro hne
    apply not_mem_statusTrace_of_rank_lt
    have hlt : statusRank s < statusRank a.status := by
      rcases Nat.lt_or_eq_of_le ha with h | h
      · exact h
      · exact absurd (statusRank_eq_imp_eq s a.status hs h.symm) hne
    exact lt_of_lt_of_le hlt (statusRank_apply_le a c)

theorem comesBackTo_statusTrace (s : AlertStatus) (hs : statusRank s ≤ 2)
    (calls : List AlertCall) :
    ∀ a : FraudAlert, comesBackTo s (statusTrace a calls) = false := by
  induction calls with
  | nil =>
    intro a
    simp [statusTrace, comesBackTo, leftThenBack]
  | cons c cs ih =>
    intro a
    simp only [statusTrace, comesBackTo, ih, Bool.or_false,
      Bool.and_eq_false_imp, beq_iff_eq]
    intro heq
    apply leftThenBack_statusTrace s hs
    rw [← heq]
    exact statusRank_apply_le a c

/-- C4, as stated, fails: an acknowledged and resolved alert that is reported
to NCC and resolved again goes resolved, reported_ncc, resolved. -/
theorem C4_comes_back_to_resolved :
    statusTrace sampleAlert
        [AlertCall.acknowledge 101 "analyst-1",
         AlertCall.resolve 102 "analyst-1" ResolutionConfirmedFraud "verified",
         AlertCall.reportToNCC 103 "ncc-1",
         AlertCall.resolve 104 "analyst-1" ResolutionFalsePositive ""]
      = [AlertStatus.AlertStatusPending, AlertStatus.AlertStatusAcknowledged,
         AlertStatus.AlertStatusResolved, AlertStatus.AlertStatusReportedNCC,
         AlertStatus.AlertStatusResolved] ∧
    comesBackTo AlertStatus.AlertStatusResolved
      (statusTrace sampleAlert
        [AlertCall.acknowledge 101 "analyst-1",
         AlertCall.resolve 102 "analyst-1" ResolutionConfirmedFraud "verified",
         AlertCall.reportToNCC 103 "ncc-1",
         AlertCall.resolve 104 "analyst-1" ResolutionFalsePositive ""])
      = true := by
  constructor <;> rfl

/-- C4, amended: for every alert and every sequence of `Acknowledge`,
`StartInvestigation`, `Resolve` and `ReportToNCC` calls, the alert never comes
back to pending, acknowledged or investigating after it has left that status. -/
theorem C4_no_return_to_early_status (a : FraudAlert) (calls : List AlertCall) :
    comesBackTo AlertStatus.AlertStatusPending (statusTrace a calls) = false ∧
    comesBackTo AlertStatus.AlertStatusAcknowledged (statusTrace a calls)
      = false ∧
    comesBackTo AlertStatus.AlertStatusInvestigating (statusTrace a calls)
      = false :=
  ⟨comesBackTo_statusTrace _ (by simp [statusRank]) calls a,
   comesBackTo_statusTrace _ (by simp [statusRank]) calls a,
   comesBackTo_statusTrace _ (by simp [statusRank]) calls a⟩

/-- C5, as stated, fails: `ReportToNCC` on a pending alert gives status
reported_ncc. -/
theorem C5_pending_alert_reported :
    sampleAlert.status = AlertStatus.AlertStatusPending ∧
    (sampleAlert.ReportToNCC 101 "ncc-1").status
      = AlertStatus.AlertStatusReportedNCC :=
  ⟨rfl, rfl⟩

/-- C5, amended: `ReportToNCC` moves an alert of any status, pending included,
to reported_ncc, and it is the only call that does: after `Acknowledge` or
`StartInvestigation` the status is reported_ncc only if it already was, and after
`Resolve` it never is. -/
theorem C5_reported_only_by_ReportToNCC (a : FraudAlert) (now : Time)
    (reportID userID : String) (resolution : ResolutionType) (notes : String) :
    (a.ReportToNCC now reportID).status = AlertStatus.AlertStatusReportedNCC ∧
    ((a.Acknowledge now userID).1.status = AlertStatus.AlertStatusReportedNCC
      ↔ a.status = AlertStatus.AlertStatusReportedNCC) ∧
    ((a.StartInvestigation now).1.status = AlertStatus.AlertStatusReportedNCC
      ↔ a.status = AlertStatus.AlertStatusReportedNCC) ∧
    (a.Resolve now userID resolution notes).1.status
      ≠ AlertStatus.AlertStatusReportedNCC := by
  refine ⟨rfl, ?_, ?_, ?_⟩
  · cases hs : a.status <;> simp [FraudAlert.Acknowledge, hs]
  · cases hs : a.status <;> simp [FraudAlert.StartInvestigation, hs]
  · cases hs : a.status <;> simp [FraudAlert.Resolve, hs]

/-! ## Workflow fields -/

theorem workflowFieldsSet_new (id : String) (now : Time)
    (callID eventType aNumber bNumber sourceIP gatewayID : String)
    (c : Float64) (detectionMethod : String) (matchedPatterns : List String) :
    WorkflowFieldsSet (NewFraudAlert id now callID eventType aNumber bNumber
      sourceIP gatewayID c detectionMethod matchedPatterns) := by
  simp [WorkflowFieldsSet, NewFraudAlert]

theorem workflowFieldsSet_apply (a : FraudAlert) (c : AlertCall)
    (h : WorkflowFieldsSet a) : WorkflowFieldsSet (c.apply a) := by
  cases c <;>
    simp only [AlertCall.apply, FraudAlert.Acknowledge,
      FraudAlert.StartInvestigation, FraudAlert.Resolve, FraudAlert.ReportToNCC]
  · split
    · exact h
    · simp [WorkflowFieldsSet]
  · split
    · exact h
    · simp [WorkflowFieldsSet]
  · split
    · exact h
    · simp [WorkflowFieldsSet]
  · simp [WorkflowFieldsSet]

theorem workflowFieldsSet_runCalls (calls : List AlertCall) :
    ∀ a : FraudAlert, WorkflowFieldsSet a → WorkflowFieldsSet (runCalls a calls) := by
  induction calls with
  | nil => intro a h; exact h
  | cons c cs ih => intro a h; exact ih _ (workflowFieldsSet_apply a c h)

/-- C6: in every alert state reached from `NewFraudAlert` by `Acknowledge`,
`StartInvestigation`, `Resolve` and `ReportToNCC` calls, status acknowledged
implies acknowledged-by and acknowledged-at are set, and status resolved implies
resolution, resolved-by and resolved-at are set. -/
theorem C6_workflow_fields_set (id : String) (now : Time)
    (callID eventType aNumber bNumber sourceIP gatewayID : String)
    (c : Float64) (detectionMethod : String) (matchedPatterns : List String)
    (calls : List AlertCall) :
    ((runCalls (NewFraudAlert id now callID eventType aNumber bNumber sourceIP
          gatewayID c detectionMethod matchedPatterns) calls).status
        = AlertStatus.AlertStatusAcknowledged →
      (runCalls (NewFraudAlert id now callID eventType aNumber bNumber sourceIP
          gatewayID c detectionMethod matchedPatterns) calls).acknowledgedBy.isSome
        = true ∧
      (runCalls (NewFraudAlert id now callID eventType aNumber bNumber sourceIP
          gatewayID c detectionMethod matchedPatterns) calls).acknowledgedAt.isSome
        = true) ∧
    ((runCalls (NewFraudAlert id now callID eventType aNumber bNumber sourceIP
          gatewayID c detectionMethod matchedPatterns) calls).status
        = AlertStatus.AlertStatusResolved →
      (runCalls (NewFraudAlert id now callID eventType aNumber bNumber sourceIP
          gatewayID c detectionMethod matchedPatterns) calls).resolution.isSome
        = true ∧
      (runCalls (NewFraudAlert id now callID eventType aNumber bNumber sourceIP
          gatewayID c detectionMethod matchedPatterns) calls).resolvedBy.isSome
        = true ∧
      (runCalls (NewFraudAlert id now callID eventType aNumber bNumber sourceIP
          gatewayID c detectionMethod matchedPatterns) calls).resolvedAt.isSome
        = true) :=
  workflowFieldsSet_runCalls calls _
    (workflowFieldsSet_new id now callID eventType aNumber bNumber sourceIP
      gatewayID c detectionMethod matchedPatterns)

/-! ## resolved-at -/

theorem resolvedAt_apply (a : FraudAlert) (c : AlertCall) :
    (c.apply a).resolvedAt.isSome = true
      ↔ a.resolvedAt.isSome = true ∨
          (a.status ≠ AlertStatus.AlertStatusResolved ∧
           (c.apply a).status = AlertStatus.AlertStatusResolved) := by
  cases c <;>
    simp only [AlertCall.apply, FraudAlert.Acknowledge,
      FraudAlert.StartInvestigation, FraudAlert.Resolve, FraudAlert.ReportToNCC]
  · split <;> simp_all
  · split <;> simp_all
  · split <;> simp_all
  · simp

theorem head_mem_statusTrace (a : FraudAlert) (calls : List AlertCall) :
    a.status ∈ statusTrace a calls := by
  cases calls <;> simp [statusTrace]

theorem resolvedAt_runCalls (calls : List AlertCall) :
    ∀ a : FraudAlert,
      (a.status = AlertStatus.AlertStatusResolved → a.resolvedAt.isSome = true) →
      ((runCalls a calls).resolvedAt.isSome = true
        ↔ a.resolvedAt.isSome = true ∨
            AlertStatus.AlertStatusResolved ∈ statusTrace a calls) := by
  induction calls with
  | nil =>
    intro a h
    simp only [runCalls, statusTrace, List.mem_singleton]
    constructor
    · exact fun hr => Or.inl hr
    · rintro (hr | hr)
      · exact hr
      · exact h hr.symm
  | cons c cs ih =>
    intro a h
    have hstep := resolvedAt_apply a c
    have hnext : (c.apply a).status = AlertStatus.AlertStatusResolved →
        (c.apply a).resolvedAt.isSome = true := by
      intro hr
      by_cases hs : a.status = AlertStatus.AlertStatusResolved
      · exact hstep.mpr (Or.inl (h hs))
      · exact hstep.mpr (Or.inr ⟨hs, hr⟩)
    simp only [runCalls, statusTrace, List.mem_cons]
    rw [ih _ hnext, hstep]
    constructor
    · rintro ((hr | ⟨_, hr⟩) | hm)
      · exact Or.inl hr
      · exact Or.inr (Or.inr (hr ▸ head_mem_statusTrace (c.apply a) cs))
      · exact Or.inr (Or.inr hm)
    · rintro (hr | hr | hm)
      · exact Or.inl (Or.inl hr)
      · exact Or.inl (Or.inl (h hr.symm))
      · exact Or.inr hm

theorem last_statusTrace (calls : List AlertCall) :
    ∀ a : FraudAlert, (runCalls a calls).status ∈ statusTrace a calls := by
  induction calls with
  | nil => intro a; simp [runCalls, statusTrace]
  | cons c cs ih => intro a; simp [runCalls, statusTrace, ih]

/-- C7, as stated, fails: after `Acknowledge`, `Resolve` and `ReportToNCC` the
status is reported_ncc, not resolved, while resolved-at is still set. -/
theorem C7_resolvedAt_set_when_reported :
    (runCalls sampleAlert
        [AlertCall.acknowledge 101 "analyst-1",
         AlertCall.resolve 102 "analyst-1" ResolutionConfirmedFraud "verified",
         AlertCall.reportToNCC 103 "ncc-1"]).resolvedAt = some 102 ∧
    (runCalls sampleAlert
        [AlertCall.acknowledge 101 "analyst-1",
         AlertCall.resolve 102 "analyst-1" ResolutionConfirmedFraud "verified",
         AlertCall.reportToNCC 103 "ncc-1"]).status
      = AlertStatus.AlertStatusReportedNCC :=
  ⟨rfl, rfl⟩

/-- C7, amended: in every alert state reached from `NewFraudAlert` by
`Acknowledge`, `StartInvestigation`, `Resolve` and `ReportToNCC` calls,
resolved-at is set if and only if the alert has held status resolved at some
point on the way (now included); in particular it is set whenever the status is
resolved. -/
theorem C7_resolvedAt_iff_was_resolved (id : String) (now : Time)
    (callID eventType aNumber bNumber sourceIP gatewayID : String)
    (c : Float64) (detectionMethod : String) (matchedPatterns : List String)
    (calls : List AlertCall) :
    ((runCalls (NewFraudAlert id now callID eventType aNumber bNumber sourceIP
          gatewayID c detectionMethod matchedPatterns) calls).resolvedAt.isSome
        = true
      ↔ AlertStatus.AlertStatusResolved ∈
          statusTrace (NewFraudAlert id now callID eventType aNumber bNumber
            sourceIP gatewayID c detectionMethod matchedPatterns) calls) ∧
    ((runCalls (NewFraudAlert id now callID eventType aNumber bNumber sourceIP
          gatewayID c detectionMethod matchedPatterns) calls).status
        = AlertStatus.AlertStatusResolved →
      (runCalls (NewFraudAlert id now callID eventType aNumber bNumber sourceIP
          gatewayID c detectionMethod matchedPatterns) calls).resolvedAt.isSome
        = true) := by
  have key := resolvedAt_runCalls calls
    (NewFraudAlert id now callID eventType aNumber bNumber sourceIP gatewayID c
      detectionMethod matchedPatterns) (by simp [NewFraudAlert])
  have hiff : (runCalls (NewFraudAlert id now callID eventType aNumber bNumber
        sourceIP gatewayID c detectionMethod matchedPatterns)
        calls).resolvedAt.isSome = true
      ↔ AlertStatus.AlertStatusResolved ∈
          statusTrace (NewFraudAlert id now callID eventType aNumber bNumber
            sourceIP gatewayID c detectionMethod matchedPatterns) calls := by
    rw [key]
    simp [NewFraudAlert]
  refine ⟨hiff, fun hs => hiff.mpr ?_⟩
  rw [← hs]
  exact last_statusTrace calls _

/-! ## Auto-escalation -/

theorem shouldAutoEscalate_apply (a : FraudAlert) (c : AlertCall) :
    (c.apply a).ShouldAutoEscalate = a.ShouldAutoEscalate := by
  cases c <;>
    simp only [AlertCall.apply, FraudAlert.Acknowledge,
      FraudAlert.StartInvestigation, FraudAlert.Resolve, FraudAlert.ReportToNCC]
  · split <;> rfl
  · split <;> rfl
  · split <;> rfl
  · rfl

theorem shouldAutoEscalate_runCalls (calls : List AlertCall) :
    ∀ a : FraudAlert, (runCalls a calls).ShouldAutoEscalate = a.ShouldAutoEscalate := by
  induction calls with
  | nil => intro a; rfl
  | cons c cs ih => intro a; rw [runCalls, ih, shouldAutoEscalate_apply]

/-- C8: for the alert built by `NewFraudAlert` with confidence `c`,
`ShouldAutoEscalate` equals (severity = critical and `c >= 0.95`), which is true
exactly when `c >= 0.95`; and no sequence of `Acknowledge`,
`StartInvestigation`, `Resolve` and `ReportToNCC` calls changes its value. -/
theorem C8_shouldAutoEscalate (id : String) (now : Time)
    (callID eventType aNumber bNumber sourceIP gatewayID : String)
    (c : Float64) (detectionMethod : String) (matchedPatterns : List String)
    (calls : List AlertCall) :
    (NewFraudAlert id now callID eventType aNumber bNumber sourceIP gatewayID c
        detectionMethod matchedPatterns).ShouldAutoEscalate
      = (decide ((NewFraudAlert id now callID eventType aNumber bNumber sourceIP
          gatewayID c detectionMethod matchedPatterns).severity
            = Severity.SeverityCritical) && c.ge c0_95) ∧
    ((NewFraudAlert id now callID eventType aNumber bNumber sourceIP gatewayID c
        detectionMethod matchedPatterns).ShouldAutoEscalate = true
      ↔ c.ge c0_95 = true) ∧
    (runCalls (NewFraudAlert id now callID eventType aNumber bNumber sourceIP
        gatewayID c detectionMethod matchedPatterns) calls).ShouldAutoEscalate
      = (NewFraudAlert id now callID eventType aNumber bNumber sourceIP gatewayID
          c detectionMethod matchedPatterns).ShouldAutoEscalate := by
  refine ⟨rfl, ?_, shouldAutoEscalate_runCalls calls _⟩
  simp only [FraudAlert.ShouldAutoEscalate, NewFraudAlert, severityOf,
    Bool.and_eq_true, decide_eq_true_eq]
  constructor
  · exact fun h => h.2
  · intro h
    refine ⟨?_, h⟩
    simp [ge_c0_9_of_ge_c0_95 c h]

/-! ## Disconnect dispatch -/

theorem Registry.get_delete_self (r : Registry) (k : String) :
    Registry.get (Registry.delete r k) k = none := by
  induction r with
  | nil => rfl
  | cons e rest ih =>
    obtain ⟨k1, v⟩ := e
    by_cases h : k1 = k
    · simpa [Registry.delete, List.filter_cons, h] using ih
    · simpa [Registry.delete, List.filter_cons, h, Registry.get] using ih

/-- C9: for a call-id that is not in the active-call registry `disconnectCall`
returns call_id, success=false and error "call not found or already ended",
posts nothing to the SBC and leaves the registry unchanged; a disconnect request
for that one id is answered requested=1, disconnected=0, failed=1 with that
single result, again with no request posted and the registry unchanged. -/
theorem C9_disconnect_unknown_call (env : Env) (s : FraudDetectionService)
    (callID reason alertID : String)
    (h : Registry.get s.activeCalls callID = none) :
    (disconnectCall env s callID reason).2
      = { CallID := callID, Success := false,
          Error := "call not found or already ended" } ∧
    (disconnectCall env s callID reason).1.sbcRequests = s.sbcRequests ∧
    (disconnectCall env s callID reason).1.activeCalls = s.activeCalls ∧
    (handleDisconnect env s
        { CallIDs := [callID], AlertID := alertID, Reason := reason }).2
      = some { Requested := 1, Disconnected := 0, Failed := 1,
               Results := [{ CallID := callID, Success := false,
                             Error := "call not found or already ended" }] } ∧
    (handleDisconnect env s
        { CallIDs := [callID], AlertID := alertID, Reason := reason }).1.sbcRequests
      = s.sbcRequests ∧
    (handleDisconnect env s
        { CallIDs := [callID], AlertID := alertID, Reason := reason }).1.activeCalls
      = s.activeCalls := by
  have hd : disconnectCall env s callID reason
      = (s, { CallID := callID, Success := false,
              Error := "call not found or already ended" }) := by
    simp [disconnectCall, h]
  simp [handleDisconnect, disconnectLoop, hd]

/-- The statement of C9 on the scenario "disconnect of an ended call": call "X"
rings, completes, and is then asked to be disconnected. -/
theorem C9_disconnect_unknown_call_witness :
    Registry.get
        (trackCall (trackCall emptyService (sampleEvent "ringing"))
          (sampleEvent "completed")).activeCalls "X" = none ∧
    (handleDisconnect (sbcAnswering (.response 200))
        (trackCall (trackCall emptyService (sampleEvent "ringing"))
          (sampleEvent "completed"))
        { CallIDs := ["X"], AlertID := "alert-1", Reason := "fraud" }).2
      = some { Requested := 1, Disconnected := 0, Failed := 1,
               Results := [{ CallID := "X", Success := false,
                             Error := "call not found or already ended" }] } ∧
    (handleDisconnect (sbcAnswering (.response 200))
        (trackCall (trackCall emptyService (sampleEvent "ringing"))
          (sampleEvent "completed"))
        { CallIDs := ["X"], AlertID := "alert-1", Reason := "fraud" }).1.sbcRequests
      = [] :=
  ⟨by decide,
   (C9_disconnect_unknown_call (sbcAnswering (.response 200))
      (trackCall (trackCall emptyService (sampleEvent "ringing"))
        (sampleEvent "completed")) "X" "fraud" "alert-1" (by decide)).2.2.2.1,
   (C9_disconnect_unknown_call (sbcAnswering (.response 200))
      (trackCall (trackCall emptyService (sampleEvent "ringing"))
        (sampleEvent "completed")) "X" "fraud" "alert-1" (by decide)).2.2.2.2.1⟩

/-- C10, as stated, fails: with call "X" in the registry and the SBC answering
204, a 2xx status, `disconnectCall` reports success=false and "X" stays in the
registry. -/
theorem C10_status_204_reported_failed :
    (Registry.get (trackCall emptyService (sampleEvent "active")).activeCalls "X"
      ).isSome = true ∧
    (200 ≤ 204 ∧ 204 < 300) ∧
    (disconnectCall (sbcAnswering (.response 204))
        (trackCall emptyService (sampleEvent "active")) "X" "fraud").2.Success
      = false ∧
    (Registry.get
        (disconnectCall (sbcAnswering (.response 204))
          (trackCall emptyService (sampleEvent "active")) "X" "fraud"
        ).1.activeCalls "X").isSome = true := by
  decide

/-- C10, amended: for a call-id present in the registry `disconnectCall` reports
success=true exactly when the SBC answers with HTTP status 200, and then the
entry is removed; for any other answer (another status, other 2xx included, or a
transport error) it reports success=false and the registry is unchanged. -/
theorem C10_success_iff_status_200 (env : Env) (s : FraudDetectionService)
    (callID reason : String) (call : ActiveCall)
    (h : Registry.get s.activeCalls callID = some call) :
    ((disconnectCall env s callID reason).2.Success = true
      ↔ env.post s.sbcRequests (rpcRequest env callID) = HttpResult.response 200) ∧
    ((disconnectCall env s callID reason).2.Success = true →
      (disconnectCall env s callID reason).1.activeCalls
        = Registry.delete s.activeCalls callID ∧
      Registry.get (disconnectCall env s callID reason).1.activeCalls callID
        = none) ∧
    ((disconnectCall env s callID reason).2.Success = false →
      (disconnectCall env s callID reason).1.activeCalls = s.activeCalls) := by
  simp only [disconnectCall, h]
  cases hp : env.post s.sbcRequests (rpcRequest env callID) with
  | transportError err => simp
  | response StatusCode =>
    by_cases h200 : StatusCode = 200
    · simp [h200, Registry.get_delete_self]
    · simp [h200]

/-- The statement of C10 with call "X" active and the SBC answering 200. -/
theorem C10_success_iff_status_200_witness :
    Registry.get (trackCall emptyService (sampleEvent "active")).activeCalls "X"
      = some { CallID := "X", ANumber := "+2348010000001",
               BNumber := "+2348099999999", StartedAt := 7, CarrierID := uuidNil,
               SwitchID := "sw-1", Status := "active" } ∧
    (disconnectCall (sbcAnswering (.response 200))
        (trackCall emptyService (sampleEvent "active")) "X" "fraud").2.Success
      = true ∧
    Registry.get
        (disconnectCall (sbcAnswering (.response 200))
          (trackCall emptyService (sampleEvent "active")) "X" "fraud"
        ).1.activeCalls "X" = none :=
  ⟨by decide,
   (C10_success_iff_status_200 (sbcAnswering (.response 200))
      (trackCall emptyService (sampleEvent "active")) "X" "fraud" _
      rfl).1.mpr rfl,
   ((C10_success_iff_status_200 (sbcAnswering (.response 200))
      (trackCall emptyService (sampleEvent "active")) "X" "fraud" _
      rfl).2.1 (by decide)).2⟩

/-! ## Disconnect response -/

theorem disconnectCall_callID (env : Env) (s : FraudDetectionService)
    (callID reason : String) :
    (disconnectCall env s callID reason).2.CallID = callID := by
  unfold disconnectCall
  split
  · rfl
  · split
    · rfl
    · split <;> rfl

theorem disconnectLoop_spec (env : Env) (reason : String) (ids : List String) :
    ∀ (s : FraudDetectionService) (r0 : DisconnectResponse),
      (disconnectLoop env reason ids s r0).2.Requested = r0.Requested ∧
      ∃ rs : List DisconnectResult,
        (disconnectLoop env reason ids s r0).2.Results = r0.Results ++ rs ∧
        rs.map (fun r => r.CallID) = ids ∧
        (disconnectLoop env reason ids s r0).2.Disconnected
          = r0.Disconnected + rs.countP (fun r => r.Success) ∧
        (disconnectLoop env reason ids s r0).2.Failed
          = r0.Failed + rs.countP (fun r => ! r.Success) := by
  induction ids with
  | nil =>
    intro s r0
    exact ⟨rfl, [], by simp [disconnectLoop]⟩
  | cons callID rest ih =>
    intro s r0
    simp only [disconnectLoop]
    obtain ⟨hreq, rs, hres, hmap, hdis, hfail⟩ :=
      ih (disconnectCall env s callID reason).1
        { r0 with
            Results := r0.Results ++ [(disconnectCall env s callID reason).2]
            Disconnected :=
              if (disconnectCall env s callID reason).2.Success
              then r0.Disconnected + 1 else r0.Disconnected
            Failed :=
              if (disconnectCall env s callID reason).2.Success
              then r0.Failed else r0.Failed + 1 }
    refine ⟨hreq, (disconnectCall env s callID reason).2 :: rs, ?_, ?_, ?_, ?_⟩
    · rw [hres]; simp
    · simp [hmap, disconnectCall_callID]
    · rw [hdis]
      cases hsucc : (disconnectCall env s callID reason).2.Success <;>
        simp [hsucc, List.countP_cons]
      all_goals omega
    · rw [hfail]
      cases hsucc : (disconnectCall env s callID reason).2.Success <;>
        simp [hsucc, List.countP_cons]
      all_goals omega

theorem countP_add_countP_not (rs : List DisconnectResult) :
    rs.countP (fun r => r.Success) + rs.countP (fun r => ! r.Success)
      = rs.length := by
  induction rs with
  | nil => rfl
  | cons r rest ih =>
    cases hsucc : r.Success <;> simp [List.countP_cons, hsucc] <;> omega

/-- A request without call-ids does not pass the binding: the reply is 400 and
the service is untouched. -/
theorem handleDisconnect_nil (env : Env) (s : FraudDetectionService)
    (alertID reason : String) :
    handleDisconnect env s { CallIDs := [], AlertID := alertID, Reason := reason }
      = (s, none) := by
  simp [handleDisconnect]

/-- C11: for every list of call-ids that passes the binding (at least one id,
duplicates included), the disconnect request is answered with a response in
which requested is the number of ids, the results are one per id in request
order, disconnected is the number of results with success=true and failed the
number with success=false, so that disconnected + failed = requested. -/
theorem C11_disconnect_response_counts (env : Env) (s : FraudDetectionService)
    (req : DisconnectRequest) (h : req.CallIDs ≠ []) :
    ∃ resp : DisconnectResponse,
      (handleDisconnect env s req).2 = some resp ∧
      resp.Requested = req.CallIDs.length ∧
      resp.Results.map (fun r => r.CallID) = req.CallIDs ∧
      resp.Results.length = req.CallIDs.length ∧
      resp.Disconnected = resp.Results.countP (fun r => r.Success) ∧
      resp.Failed = resp.Results.countP (fun r => ! r.Success) ∧
      resp.Disconnected + resp.Failed = resp.Requested := by
  have hlen : ¬ req.CallIDs.length < 1 := by
    cases hc : req.CallIDs with
    | nil => exact absurd hc h
    | cons x xs => simp
  obtain ⟨hreq, rs, hres, hmap, hdis, hfail⟩ :=
    disconnectLoop_spec env req.Reason req.CallIDs s
      { Requested := req.CallIDs.length, Disconnected := 0, Failed := 0,
        Results := [] }
  simp only [List.nil_append, Nat.zero_add] at hres hdis hfail hreq
  have hl : rs.length = req.CallIDs.length := by
    rw [← hmap, List.length_map]
  refine ⟨_, by simp only [handleDisconnect, hlen, if_false], hreq, ?_, ?_, ?_,
    ?_, ?_⟩
  · rw [hres, hmap]
  · rw [hres, hl]
  · rw [hres, hdis]
  · rw [hres, hfail]
  · rw [hdis, hfail, hreq, countP_add_countP_not, hl]

/-- The statement of C11 for the ids "X", "X", "Y" with no call active. -/
theorem C11_disconnect_response_counts_witness :
    (["X", "X", "Y"] : List String) ≠ [] ∧
    ∃ resp : DisconnectResponse,
      (handleDisconnect (sbcAnswering (.response 200)) emptyService
        { CallIDs := ["X", "X", "Y"], AlertID := "", Reason := "" }).2
        = some resp ∧
      resp.Requested = 3 ∧
      resp.Results.map (fun r => r.CallID) = ["X", "X", "Y"] ∧
      resp.Results.length = 3 ∧
      resp.Disconnected = resp.Results.countP (fun r => r.Success) ∧
      resp.Failed = resp.Results.countP (fun r => ! r.Success) ∧
      resp.Disconnected + resp.Failed = resp.Requested :=
  ⟨by decide,
   C11_disconnect_response_counts (sbcAnswering (.response 200)) emptyService
     { CallIDs := ["X", "X", "Y"], AlertID := "", Reason := "" } (by decide)⟩

/-! ## Active-call registry -/

theorem Registry.delete_cons (k2 : String) (v : ActiveCall) (rest : Registry)
    (k : String) :
    Registry.delete ((k2, v) :: rest) k
      = if k2 = k then Registry.delete rest k
        else (k2, v) :: Registry.delete rest k := by
  by_cases h : k2 = k <;> simp [Registry.delete, List.filter_cons, h]

theorem Registry.get_delete_of_ne (r : Registry) (k k1 : String) (h : k1 ≠ k) :
    Registry.get (Registry.delete r k) k1 = Registry.get r k1 := by
  induction r with
  | nil => rfl
  | cons e rest ih =>
    obtain ⟨k2, v⟩ := e
    rw [Registry.delete_cons]
    by_cases h2 : k2 = k
    · have h3 : ¬ k2 = k1 := fun e => h (e.symm.trans h2)
      rw [if_pos h2, ih, Registry.get, if_neg h3]
    · rw [if_neg h2]
      by_cases h3 : k2 = k1
      · rw [Registry.get, if_pos h3, Registry.get, if_pos h3]
      · rw [Registry.get, if_neg h3, ih, Registry.get, if_neg h3]

theorem Registry.get_set_self (r : Registry) (k : String) (v : ActiveCall) :
    Registry.get (Registry.set r k v) k = some v := by
  simp [Registry.set, Registry.get]

theorem Registry.get_set_of_ne (r : Registry) (k k1 : String) (v : ActiveCall)
    (h : k1 ≠ k) :
    Registry.get (Registry.set r k v) k1 = Registry.get r k1 := by
  have h2 : ¬ k = k1 := fun e => h e.symm
  simp [Registry.set, Registry.get, h2, Registry.get_delete_of_ne r k k1 h]

/-- C12: after `trackCall(e)`, if the status of `e` is ringing or active the
registry maps the call-id of `e` to an entry with the a-number, b-number,
switch-id and status of `e` (and started-at the timestamp of `e`); if it is
completed or disconnected the registry has no entry for that call-id; and
whatever the status, the entry of every other call-id is as before. -/
theorem C12_trackCall_registry (s : FraudDetectionService) (e : CallEvent) :
    ((e.Status = "ringing" ∨ e.Status = "active") →
      Registry.get (trackCall s e).activeCalls e.CallID
        = some { CallID := e.CallID, ANumber := e.ANumber, BNumber := e.BNumber,
                 StartedAt := e.Timestamp, CarrierID := uuidNil,
                 SwitchID := e.SwitchID, Status := e.Status }) ∧
    ((e.Status = "completed" ∨ e.Status = "disconnected") →
      Registry.get (trackCall s e).activeCalls e.CallID = none) ∧
    (∀ k : String, k ≠ e.CallID →
      Registry.get (trackCall s e).activeCalls k
        = Registry.get s.activeCalls k) := by
  refine ⟨?_, ?_, ?_⟩
  · intro h
    simp only [trackCall, h, if_true]
    exact Registry.get_set_self _ _ _
  · intro h
    have hn : ¬ (e.Status = "ringing" ∨ e.Status = "active") := by
      rcases h with h | h <;> simp [h]
    simp only [trackCall, hn, h, if_true, if_false]
    exact Registry.get_delete_self _ _
  · intro k hk
    unfold trackCall
    split
    · exact Registry.get_set_of_ne _ _ _ _ hk
    · split
      · exact Registry.get_delete_of_ne _ _ _ hk
      · rfl

/-- C13, as stated, fails: call "X" rings at instant 7 and is active at
instant 9; the entry then has started-at 9, not 7. -/
theorem C13_startedAt_overwritten :
    (Registry.get
        (trackCall emptyService ((sampleRequest "ringing" 7).toEvent 0)
        ).activeCalls "X").map (fun c => c.StartedAt) = some 7 ∧
    (Registry.get
        (trackCall
          (trackCall emptyService ((sampleRequest "ringing" 7).toEvent 0))
          ((sampleRequest "active" 9).toEvent 0)
        ).activeCalls "X").map (fun c => c.StartedAt) = some 9 := by
  decide

/-- C13, amended: when a ringing or active event arrives for a call-id that
already has a registry entry, the entry is replaced whole: every field takes the
value of the new event, started-at included, which becomes the timestamp of the
new event (last write wins on all fields). -/
theorem C13_entry_replaced_whole (s : FraudDetectionService) (e : CallEvent)
    (old : ActiveCall)
    (_hold : Registry.get s.activeCalls e.CallID = some old)
    (h : e.Status = "ringing" ∨ e.Status = "active") :
    Registry.get (trackCall s e).activeCalls e.CallID
      = some { CallID := e.CallID, ANumber := e.ANumber, BNumber := e.BNumber,
               StartedAt := e.Timestamp, CarrierID := uuidNil,
               SwitchID := e.SwitchID, Status := e.Status } ∧
    (Registry.get (trackCall s e).activeCalls e.CallID).map
        (fun c => c.StartedAt) = some e.Timestamp := by
  have hget : Registry.get (trackCall s e).activeCalls e.CallID
      = some { CallID := e.CallID, ANumber := e.ANumber, BNumber := e.BNumber,
               StartedAt := e.Timestamp, CarrierID := uuidNil,
               SwitchID := e.SwitchID, Status := e.Status } := by
    simp only [trackCall, h, if_true]
    exact Registry.get_set_self _ _ _
  exact ⟨hget, by rw [hget]; rfl⟩

/-- The statement of C13 for call "X", ringing at instant 7 and then active at
instant 9. -/
theorem C13_entry_replaced_whole_witness :
    Registry.get
        (trackCall emptyService ((sampleRequest "ringing" 7).toEvent 0)
        ).activeCalls "X"
      = some { CallID := "X", ANumber := "+2348010000001",
               BNumber := "+2348099999999", StartedAt := 7, CarrierID := uuidNil,
               SwitchID := "sw-1", Status := "ringing" } ∧
    (Registry.get
        (trackCall
          (trackCall emptyService ((sampleRequest "ringing" 7).toEvent 0))
          ((sampleRequest "active" 9).toEvent 0)
        ).activeCalls "X").map (fun c => c.StartedAt) = some 9 :=
  ⟨by decide,
   (C13_entry_replaced_whole
      (trackCall emptyService ((sampleRequest "ringing" 7).toEvent 0))
      ((sampleRequest "active" 9).toEvent 0) _ rfl (by decide)).2⟩

/-! ## Event buffer -/

theorem trackCall_callEventsBuffer (s : FraudDetectionService) (e : CallEvent) :
    (trackCall s e).callEventsBuffer = s.callEventsBuffer := by
  unfold trackCall
  split
  · rfl
  · split <;> rfl

theorem handleCallEvent_callEventsBuffer (s : FraudDetectionService)
    (now : Time) (req : CallEventCreate) :
    (handleCallEvent s now req).1.callEventsBuffer
      = s.callEventsBuffer ++ [req.toEvent now] := by
  simp [handleCallEvent, trackCall_callEventsBuffer]

theorem batchLoop_callEventsBuffer (now : Time) (events : List CallEventCreate) :
    ∀ (s : FraudDetectionService) (processed : Nat),
      (batchLoop now events s processed).1.callEventsBuffer
        = s.callEventsBuffer ++ events.map (fun req => req.toEvent now) := by
  induction events with
  | nil => intro s processed; simp [batchLoop]
  | cons req rest ih =>
    intro s processed
    simp [batchLoop, ih, trackCall_callEventsBuffer]

theorem submitAll_callEventsBuffer (subs : List Submission) :
    ∀ s : FraudDetectionService,
      (submitAll s subs).callEventsBuffer
        = s.callEventsBuffer ++ submittedEvents subs := by
  induction subs with
  | nil => intro s; simp [submitAll, submittedEvents]
  | cons x rest ih =>
    intro s
    cases x with
    | single now req =>
      simp [submitAll, submittedEvents, ih, Submission.apply, Submission.events,
        handleCallEvent_callEventsBuffer]
    | batch now events =>
      simp [submitAll, submittedEvents, ih, Submission.apply, Submission.events,
        handleCallEventBatch, batchLoop_callEventsBuffer]

theorem flushBuffer_callEventsBuffer (Marshal : List CallEvent → Option String)
    (post : String → HttpResult) (s : FraudDetectionService) :
    (flushBuffer Marshal post s).1.callEventsBuffer = [] := by
  unfold flushBuffer
  split
  · rename_i h
    exact List.length_eq_zero.mp h
  · simp only
    split <;> rfl

theorem flushBuffer_activeCalls (Marshal : List CallEvent → Option String)
    (post : String → HttpResult) (s : FraudDetectionService) :
    (flushBuffer Marshal post s).1.activeCalls = s.activeCalls := by
  unfold flushBuffer
  split
  · rfl
  · simp only
    split <;> rfl

theorem flushBuffer_of_marshal_some (Marshal : List CallEvent → Option String)
    (post : String → HttpResult) (s : FraudDetectionService) (payload : String)
    (h : s.callEventsBuffer ≠ [])
    (hm : Marshal s.callEventsBuffer = some payload) :
    (flushBuffer Marshal post s).2
      = some (s.callEventsBuffer, post payload) := by
  have hl : ¬ s.callEventsBuffer.length = 0 :=
    fun e => h (List.length_eq_zero.mp e)
  simp [flushBuffer, hl, hm]

theorem flushBuffer_of_marshal_none (Marshal : List CallEvent → Option String)
    (post : String → HttpResult) (s : FraudDetectionService)
    (hm : Marshal s.callEventsBuffer = none) :
    (flushBuffer Marshal post s).2 = none := by
  by_cases hl : s.callEventsBuffer.length = 0
  · simp [flushBuffer, hl]
  · simp [flushBuffer, hl, hm]

theorem flushBuffer_of_eq_nil (Marshal : List CallEvent → Option String)
    (post : String → HttpResult) (s : FraudDetectionService)
    (h : s.callEventsBuffer = []) :
    (flushBuffer Marshal post s).2 = none := by
  simp [flushBuffer, h]

theorem postedBatch_flushBuffer_of_marshal_some
    (Marshal : List CallEvent → Option String) (post : String → HttpResult)
    (s : FraudDetectionService) (payload : String)
    (hm : Marshal s.callEventsBuffer = some payload) :
    postedBatch (flushBuffer Marshal post s) = s.callEventsBuffer := by
  by_cases h : s.callEventsBuffer = []
  · rw [postedBatch, flushBuffer_of_eq_nil Marshal post s h, h]
  · rw [postedBatch, flushBuffer_of_marshal_some Marshal post s payload h hm]

theorem submittedEvents_replicate_single (n : Nat) (now : Time)
    (req : CallEventCreate) :
    (submittedEvents (List.replicate n (Submission.single now req))).length
      = n := by
  induction n with
  | zero => rfl
  | succ n ih =>
    simp [List.replicate_succ, submittedEvents, Submission.events, ih]

/-- C14, as stated, fails: a completed event of call "X" is buffered (it has no
immediate send), the flush encodes it and finds the detector unreachable, and
afterwards the buffer is empty: the event is in no buffer and a later flush
posts nothing. -/
theorem C14_failed_batch_dropped :
    (handleCallEvent emptyService 1 (sampleRequest "completed" 7)).2.sentNow
      = none ∧
    (handleCallEvent emptyService 1 (sampleRequest "completed" 7)
      ).1.callEventsBuffer = [(sampleRequest "completed" 7).toEvent 1] ∧
    (flushBuffer (sampleMarshal []) detectorDown
        (handleCallEvent emptyService 1 (sampleRequest "completed" 7)).1).2
      = some ([(sampleRequest "completed" 7).toEvent 1],
              HttpResult.transportError "connection refused") ∧
    batchAccepted (HttpResult.transportError "connection refused") = false ∧
    (flushBuffer (sampleMarshal []) detectorDown
        (handleCallEvent emptyService 1 (sampleRequest "completed" 7)).1
      ).1.callEventsBuffer = [] ∧
    (flushBuffer (sampleMarshal []) (fun _ => HttpResult.response 200)
        (flushBuffer (sampleMarshal []) detectorDown
          (handleCallEvent emptyService 1 (sampleRequest "completed" 7)).1).1).2
      = none := by
  decide

/-- C14, amended: a flush leaves the buffer empty whatever happens next. When
the batch of buffered events encodes, it is posted to the detector once, in one
batch; when its encoding fails, nothing is posted. The events of a batch whose
encoding or send fails (transport error or non-success status) are not buffered
again, so the next flush posts nothing. -/
theorem C14_flush_empties_buffer
    (Marshal Marshal2 : List CallEvent → Option String)
    (post post2 : String → HttpResult) (s : FraudDetectionService) :
    (flushBuffer Marshal post s).1.callEventsBuffer = [] ∧
    (flushBuffer Marshal post s).1.activeCalls = s.activeCalls ∧
    (∀ payload : String, s.callEventsBuffer ≠ [] →
      Marshal s.callEventsBuffer = some payload →
      (flushBuffer Marshal post s).2
        = some (s.callEventsBuffer, post payload)) ∧
    (Marshal s.callEventsBuffer = none →
      (flushBuffer Marshal post s).2 = none) ∧
    (flushBuffer Marshal2 post2 (flushBuffer Marshal post s).1).2 = none :=
  ⟨flushBuffer_callEventsBuffer Marshal post s,
   flushBuffer_activeCalls Marshal post s,
   fun payload h hm => flushBuffer_of_marshal_some Marshal post s payload h hm,
   fun hm => flushBuffer_of_marshal_none Marshal post s hm,
   flushBuffer_of_eq_nil Marshal2 post2 _
     (flushBuffer_callEventsBuffer Marshal post s)⟩

/-- C15, as stated, fails: no capacity bounds the buffer. Whatever the capacity,
one submission more than it, with no flush in between, leaves that many events
buffered. -/
theorem C15_no_capacity :
    ¬ ∃ cap : Nat, ∀ subs : List Submission,
        (submitAll emptyService subs).callEventsBuffer.length ≤ cap := by
  rintro ⟨cap, h⟩
  have h1 := h (List.replicate (cap + 1)
    (Submission.single 1 (sampleRequest "completed" 7)))
  rw [submitAll_callEventsBuffer] at h1
  simp only [emptyService, List.nil_append,
    submittedEvents_replicate_single] at h1
  omega

/-- C15, amended: the buffer has no capacity and drops nothing: after any
sequence of single and batched submissions with no intervening flush it holds
the events it held before followed by every submitted event, in submission
order, so its length grows by the number of submitted events. -/
theorem C15_buffer_keeps_every_event (s : FraudDetectionService)
    (subs : List Submission) :
    (submitAll s subs).callEventsBuffer
      = s.callEventsBuffer ++ submittedEvents subs ∧
    (submitAll s subs).callEventsBuffer.length
      = s.callEventsBuffer.length + (submittedEvents subs).length := by
  rw [submitAll_callEventsBuffer]
  exact ⟨rfl, List.length_append _ _⟩

/-- C16, as stated, fails: after a flush, a ringing event of call "X" is
submitted whose timestamp (instant 24 here) the encoder refuses; the next flush
empties the buffer and posts nothing, so the event buffered since the previous
flush is not handed downstream. -/
theorem C16_unencodable_batch_not_posted :
    submittedEvents [Submission.single 1 (sampleRequest "ringing" 24)]
      = [(sampleRequest "ringing" 24).toEvent 1] ∧
    (submitAll
        (flushBuffer (sampleMarshal [24]) (fun _ => HttpResult.response 200)
          emptyService).1
        [Submission.single 1 (sampleRequest "ringing" 24)]).callEventsBuffer
      = [(sampleRequest "ringing" 24).toEvent 1] ∧
    sampleMarshal [24] [(sampleRequest "ringing" 24).toEvent 1] = none ∧
    (flushBuffer (sampleMarshal [24]) (fun _ => HttpResult.response 200)
        (submitAll
          (flushBuffer (sampleMarshal [24]) (fun _ => HttpResult.response 200)
            emptyService).1
          [Submission.single 1 (sampleRequest "ringing" 24)])).2 = none ∧
    (flushBuffer (sampleMarshal [24]) (fun _ => HttpResult.response 200)
        (submitAll
          (flushBuffer (sampleMarshal [24]) (fun _ => HttpResult.response 200)
            emptyService).1
          [Submission.single 1 (sampleRequest "ringing" 24)])
      ).1.callEventsBuffer = [] := by
  decide

/-- C16, amended: after a flush, for every sequence of submissions followed by a
flush: when the events submitted since the previous flush encode, that flush
posts exactly them, in submission order and in one batch (it posts nothing when
there is none), so that the events of each call-id keep their relative order;
when their encoding fails it posts nothing; in both cases it leaves the buffer
empty. -/
theorem C16_flush_posts_encodable_events
    (Marshal0 Marshal : List CallEvent → Option String)
    (post0 post : String → HttpResult) (s : FraudDetectionService)
    (subs : List Submission) :
    (∀ payload : String, Marshal (submittedEvents subs) = some payload →
      postedBatch (flushBuffer Marshal post
          (submitAll (flushBuffer Marshal0 post0 s).1 subs))
        = submittedEvents subs ∧
      (submittedEvents subs ≠ [] →
        (flushBuffer Marshal post
            (submitAll (flushBuffer Marshal0 post0 s).1 subs)).2
          = some (submittedEvents subs, post payload)) ∧
      (∀ callID : String,
        (postedBatch (flushBuffer Marshal post
            (submitAll (flushBuffer Marshal0 post0 s).1 subs))
          ).filter (fun e => decide (e.CallID = callID))
        = (submittedEvents subs).filter
            (fun e => decide (e.CallID = callID)))) ∧
    (submittedEvents subs = [] →
      (flushBuffer Marshal post
          (submitAll (flushBuffer Marshal0 post0 s).1 subs)).2 = none) ∧
    (Marshal (submittedEvents subs) = none →
      (flushBuffer Marshal post
          (submitAll (flushBuffer Marshal0 post0 s).1 subs)).2 = none) ∧
    (flushBuffer Marshal post
        (submitAll (flushBuffer Marshal0 post0 s).1 subs)
      ).1.callEventsBuffer = [] := by
  have hbuf : (submitAll (flushBuffer Marshal0 post0 s).1 subs).callEventsBuffer
      = submittedEvents subs := by
    rw [submitAll_callEventsBuffer, flushBuffer_callEventsBuffer, List.nil_append]
  refine ⟨?_, ?_, ?_, flushBuffer_callEventsBuffer _ _ _⟩
  · intro payload hm
    have hposted := postedBatch_flushBuffer_of_marshal_some Marshal post
      (submitAll (flushBuffer Marshal0 post0 s).1 subs) payload
      (by rw [hbuf]; exact hm)
    rw [hbuf] at hposted
    refine ⟨hposted, ?_, ?_⟩
    · intro hne
      have := flushBuffer_of_marshal_some Marshal post
        (submitAll (flushBuffer Marshal0 post0 s).1 subs) payload
        (by rw [hbuf]; exact hne) (by rw [hbuf]; exact hm)
      rw [hbuf] at this
      exact this
    · intro callID
      rw [hposted]
  · intro he
    exact flushBuffer_of_eq_nil Marshal post _ (by rw [hbuf]; exact he)
  · intro hm
    exact flushBuffer_of_marshal_none Marshal post _ (by rw [hbuf]; exact hm)

/-- C17, as stated, fails: the ringing event of call "X" submitted twice is
twice in the batch the flush posts. -/
theorem C17_duplicate_posted_twice :
    postedBatch
        (flushBuffer (sampleMarshal []) detectorDown
          (submitAll emptyService
            [Submission.single 1 (sampleRequest "ringing" 7),
             Submission.single 2 (sampleRequest "ringing" 7)]))
      = [(sampleRequest "ringing" 7).toEvent 1,
         (sampleRequest "ringing" 7).toEvent 2] ∧
    ((sampleRequest "ringing" 7).toEvent 1).CallID
      = ((sampleRequest "ringing" 7).toEvent 2).CallID ∧
    ((sampleRequest "ringing" 7).toEvent 1).Status
      = ((sampleRequest "ringing" 7).toEvent 2).Status := by
  decide

/-- C17, amended: the event buffer does not deduplicate: it holds every event
submitted since the previous flush as many times as it was submitted, events
with the same call-id and status included, and the batch a flush posts, when it
encodes, holds each of them that many times as well. -/
theorem C17_batch_keeps_duplicates
    (Marshal0 Marshal : List CallEvent → Option String)
    (post0 post : String → HttpResult) (s : FraudDetectionService)
    (subs : List Submission) (e : CallEvent) :
    (submitAll (flushBuffer Marshal0 post0 s).1 subs).callEventsBuffer.count e
      = (submittedEvents subs).count e ∧
    (∀ payload : String, Marshal (submittedEvents subs) = some payload →
      (postedBatch (flushBuffer Marshal post
          (submitAll (flushBuffer Marshal0 post0 s).1 subs))).count e
        = (submittedEvents subs).count e) := by
  have hbuf : (submitAll (flushBuffer Marshal0 post0 s).1 subs).callEventsBuffer
      = submittedEvents subs := by
    rw [submitAll_callEventsBuffer, flushBuffer_callEventsBuffer, List.nil_append]
  refine ⟨by rw [hbuf], ?_⟩
  intro payload hm
  rw [postedBatch_flushBuffer_of_marshal_some Marshal post _ payload
    (by rw [hbuf]; exact hm), hbuf]

/-! ## Gateway: blacklist and activation -/

theorem NewGateway_ok (ParseIP : String → Option IP) (now : Time)
    (id name ipAddress carrierName : String) (gatewayType : GatewayType)
    (g : Gateway)
    (h : NewGateway ParseIP now id name ipAddress carrierName gatewayType
      = .ok g) :
    g.isActive = true ∧ g.isBlacklisted = false ∧ g.fraudThreshold = c0_8 ∧
    g.cpmLimit = 60 ∧ g.acdThreshold = .finite 10 := by
  unfold NewGateway at h
  split at h
  · cases h
  · split at h
    · cases h
    · split at h
      · cases h
      · cases h
        exact ⟨rfl, rfl, rfl, rfl, rfl⟩

theorem blacklisted_inactive_apply (g : Gateway) (c : GatewayCall)
    (h : g.isBlacklisted = true → g.isActive = false) :
    (c.apply g).isBlacklisted = true → (c.apply g).isActive = false := by
  cases c with
  | updateThresholds now f c a => exact h
  | updateName now name =>
    simp only [GatewayCall.apply, Gateway.UpdateName]
    split
    · exact h
    · exact h
  | updateCarrier now carrierName =>
    simp only [GatewayCall.apply, Gateway.UpdateCarrier]
    split
    · exact h
    · exact h
  | activate now =>
    simp only [GatewayCall.apply, Gateway.Activate]
    split
    · exact h
    · split
      · exact h
      · rename_i hb
        intro hb2
        exact absurd hb2 hb
  | deactivate now =>
    simp only [GatewayCall.apply, Gateway.Deactivate]
    split
    · exact h
    · intro _; rfl
  | blacklist now reason expiresAt => intro _; rfl
  | unblacklist now =>
    intro hb
    simp [GatewayCall.apply, Gateway.Unblacklist] at hb
  | setStatistics callsToday fraudCount => exact h

theorem blacklisted_inactive_runGatewayCalls (calls : List GatewayCall) :
    ∀ g : Gateway, (g.isBlacklisted = true → g.isActive = false) →
      (runGatewayCalls g calls).isBlacklisted = true →
      (runGatewayCalls g calls).isActive = false := by
  induction calls with
  | nil => intro g h; exact h
  | cons c cs ih => intro g h; exact ih _ (blacklisted_inactive_apply g c h)

/-- C18: for every gateway obtained from `NewGateway` by any sequence of
`UpdateThresholds`, `UpdateName`, `UpdateCarrier`, `Activate`, `Deactivate`,
`Blacklist`, `Unblacklist` and `SetStatistics` calls, if the gateway is
blacklisted then it is not active; and on such a gateway `Activate` fails with
`ErrGatewayBlacklisted` and returns the gateway as it was, inactive. -/
theorem C18_blacklisted_not_active (ParseIP : String → Option IP) (now : Time)
    (id name ipAddress carrierName : String) (gatewayType : GatewayType)
    (g : Gateway) (calls : List GatewayCall) (t : Time)
    (h : NewGateway ParseIP now id name ipAddress carrierName gatewayType
      = .ok g) :
    ((runGatewayCalls g calls).isBlacklisted = true →
      (runGatewayCalls g calls).isActive = false) ∧
    ((runGatewayCalls g calls).isBlacklisted = true →
      (runGatewayCalls g calls).Activate t
        = (runGatewayCalls g calls, some GatewayError.ErrGatewayBlacklisted)) := by
  have hnew := NewGateway_ok ParseIP now id name ipAddress carrierName
    gatewayType g h
  have hinv := blacklisted_inactive_runGatewayCalls calls g
    (fun hb => by rw [hnew.2.1] at hb; cases hb)
  refine ⟨hinv, fun hb => ?_⟩
  simp [Gateway.Activate, hinv hb, hb]

/-- The statement of C18 on the gateway of `TestGatewayBlacklisting`: created,
blacklisted, then asked to activate. -/
theorem C18_blacklisted_not_active_witness :
    NewGateway sampleParseIP 100 "gw-001" "Test" "192.168.1.1" "MTN"
        GatewayTypeLocal = .ok sampleGateway ∧
    (runGatewayCalls sampleGateway
        [GatewayCall.blacklist 101 "Fraud detected" none,
         GatewayCall.activate 102]).isBlacklisted = true ∧
    (runGatewayCalls sampleGateway
        [GatewayCall.blacklist 101 "Fraud detected" none,
         GatewayCall.activate 102]).isActive = false :=
  ⟨rfl, by decide,
   (C18_blacklisted_not_active sampleParseIP 100 "gw-001" "Test" "192.168.1.1"
      "MTN" GatewayTypeLocal sampleGateway
      [GatewayCall.blacklist 101 "Fraud detected" none,
       GatewayCall.activate 102] 103 rfl).1 (by decide)⟩

/-! ## Gateway: thresholds -/

/-- What `UpdateThresholds` writes: the clamped value of each supplied
threshold, the previous value of each threshold passed as nil. -/
theorem updateThresholds_fields (g : Gateway) (now : Time) (t a : Float64)
    (c : Int) :
    (g.UpdateThresholds now (some t) (some c) (some a)).fraudThreshold
      = clampFraudThreshold t ∧
    (g.UpdateThresholds now (some t) (some c) (some a)).cpmLimit
      = clampCPMLimit c ∧
    (g.UpdateThresholds now (some t) (some c) (some a)).acdThreshold
      = clampACDThreshold a ∧
    (g.UpdateThresholds now none none none).fraudThreshold = g.fraudThreshold ∧
    (g.UpdateThresholds now none none none).cpmLimit = g.cpmLimit ∧
    (g.UpdateThresholds now none none none).acdThreshold = g.acdThreshold :=
  ⟨rfl, rfl, rfl, rfl, rfl, rfl⟩

/-- A supplied fraud threshold that is a number (not NaN) is stored within
[0, 1]: itself when in range, the nearest bound otherwise. -/
theorem clampFraudThreshold_of_ne_nan (t : Float64) (h : t ≠ .nan) :
    (clampFraudThreshold t).ge (.finite 0) = true ∧
    (Float64.finite 1).ge (clampFraudThreshold t) = true ∧
    (t.ge (.finite 0) = true → (Float64.finite 1).ge t = true →
      clampFraudThreshold t = t) ∧
    (t.lt (.finite 0) = true → clampFraudThreshold t = .finite 0) ∧
    (t.gt (.finite 1) = true → clampFraudThreshold t = .finite 1) := by
  cases t with
  | nan => exact absurd rfl h
  | negInf => simp [clampFraudThreshold, Float64.lt, Float64.gt, Float64.ge]
  | posInf => simp [clampFraudThreshold, Float64.lt, Float64.gt, Float64.ge]
  | finite q =>
    by_cases h0 : q < 0
    · have h1 : ¬ (1 : ℚ) < q := by linarith
      have h2 : ¬ (0 : ℚ) ≤ q := by linarith
      simp [clampFraudThreshold, Float64.lt, Float64.gt, Float64.ge, h0, h1, h2]
    · by_cases h1 : (1 : ℚ) < q
      · have h2 : ¬ q ≤ 1 := by linarith
        simp [clampFraudThreshold, Float64.lt, Float64.gt, Float64.ge, h0, h1, h2]
      · have h2 : (0 : ℚ) ≤ q := by linarith
        have h3 : q ≤ 1 := by linarith
        simp [clampFraudThreshold, Float64.lt, Float64.gt, Float64.ge, h0, h1,
          h2, h3]

/-- A supplied CPM limit is stored within [1, 1000]: itself when in range, the
nearest bound otherwise. -/
theorem clampCPMLimit_spec (c : Int) :
    1 ≤ clampCPMLimit c ∧ clampCPMLimit c ≤ 1000 ∧
    (1 ≤ c → c ≤ 1000 → clampCPMLimit c = c) ∧
    (c < 1 → clampCPMLimit c = 1) ∧
    (c > 1000 → clampCPMLimit c = 1000) := by
  unfold clampCPMLimit
  refine ⟨?_, ?_, ?_, ?_, ?_⟩ <;> split_ifs <;> omega

/-- A supplied ACD threshold that is a number (not NaN) is stored at 1 or
above: itself when it is at least 1, and 1 otherwise. -/
theorem clampACDThreshold_of_ne_nan (a : Float64) (h : a ≠ .nan) :
    (clampACDThreshold a).ge (.finite 1) = true ∧
    (a.ge (.finite 1) = true → clampACDThreshold a = a) ∧
    (a.lt (.finite 1) = true → clampACDThreshold a = .finite 1) := by
  cases a with
  | nan => exact absurd rfl h
  | negInf => simp [clampACDThreshold, Float64.lt, Float64.ge]
  | posInf => simp [clampACDThreshold, Float64.lt, Float64.ge]
  | finite q =>
    by_cases h1 : q < 1
    · have h2 : ¬ (1 : ℚ) ≤ q := by linarith
      simp [clampACDThreshold, Float64.lt, Float64.ge, h1, h2]
    · have h2 : (1 : ℚ) ≤ q := by linarith
      simp [clampACDThreshold, Float64.lt, Float64.ge, h1, h2]

/-- C19 at a NaN: `UpdateThresholds` on the new test gateway with a NaN fraud
threshold and a NaN ACD threshold stores both as they are, since every
comparison with NaN is false; the stored fraud threshold is then neither at
least 0 nor at most 1 and the stored ACD threshold is not at least 1. -/
theorem C19_nan_threshold_stored :
    (sampleGateway.UpdateThresholds 101 (some .nan) none (some .nan)
      ).fraudThreshold = Float64.nan ∧
    ((sampleGateway.UpdateThresholds 101 (some .nan) none (some .nan)
      ).fraudThreshold).ge (.finite 0) = false ∧
    (Float64.finite 1).ge
      (sampleGateway.UpdateThresholds 101 (some .nan) none (some .nan)
        ).fraudThreshold = false ∧
    (sampleGateway.UpdateThresholds 101 (some .nan) none (some .nan)
      ).acdThreshold = Float64.nan ∧
    ((sampleGateway.UpdateThresholds 101 (some .nan) none (some .nan)
      ).acdThreshold).ge (.finite 1) = false := by
  refine ⟨rfl, rfl, rfl, rfl, rfl⟩

/-! ## Gateway: CPM limit -/

/-- C20: for every gateway with CPM limit `L` and every integer `n`,
`ExceedsCPMLimit(n)` holds exactly when `n > L`; a CPM of `L` does not exceed
the limit and a CPM of `L + 1` does. -/
theorem C20_exceedsCPMLimit (g : Gateway) (n : Int) :
    (g.ExceedsCPMLimit n = true ↔ n > g.cpmLimit) ∧
    g.ExceedsCPMLimit g.cpmLimit = false ∧
    g.ExceedsCPMLimit (g.cpmLimit + 1) = true := by
  simp [Gateway.ExceedsCPMLimit]

/-! ## MSISDN normalization -/

theorem stripSpacesAndDashes_idem (x : GoString) :
    stripSpacesAndDashes (stripSpacesAndDashes x) = stripSpacesAndDashes x := by
  simp [stripSpacesAndDashes, List.filter_filter]

theorem stripSpacesAndDashes_eq_self_iff (x : GoString) :
    stripSpacesAndDashes x = x ↔ ∀ b ∈ x, isSpaceOrDash b = false := by
  simp [stripSpacesAndDashes, List.filter_eq_self]

/-- What `NormalizeMSISDN` does on a non-empty string that holds no space and no
dash, such as one of its own results. -/
theorem NormalizeMSISDN_of_clean (c0 : Nat) (rest : GoString)
    (h : stripSpacesAndDashes (c0 :: rest) = c0 :: rest) :
    NormalizeMSISDN (c0 :: rest)
      = if c0 ≠ 43 ∧ (c0 :: rest).length < 3 then none
        else if c0 ≠ 43 ∧ (c0 :: rest).take 3 = [50, 51, 52] then
          some (43 :: c0 :: rest)
        else if c0 = 48 ∧ (c0 :: rest).length = 11 then
          some ([43, 50, 51, 52] ++ rest)
        else some (c0 :: rest) := by
  simp only [NormalizeMSISDN, h]
  simp

theorem NormalizeMSISDN_plus (rest : GoString)
    (h : stripSpacesAndDashes rest = rest) :
    NormalizeMSISDN (43 :: rest) = some (43 :: rest) := by
  have hc : stripSpacesAndDashes (43 :: rest) = 43 :: rest := by
    rw [stripSpacesAndDashes_eq_self_iff] at h ⊢
    intro b hb
    rcases List.mem_cons.mp hb with rfl | hb
    · decide
    · exact h b hb
  rw [NormalizeMSISDN_of_clean 43 rest hc]
  simp

/-- C21: `NormalizeMSISDN` is idempotent: whenever it returns a value for a
string, it returns that same value for that value. -/
theorem C21_normalize_idempotent (x y : GoString)
    (h : NormalizeMSISDN x = some y) : NormalizeMSISDN y = some y := by
  unfold NormalizeMSISDN at h
  split at h
  · rename_i hlen
    cases h
    have : x = [] := List.length_eq_zero.mp hlen
    subst this
    rfl
  · split at h
    · cases h
    · rename_i c0 rest hstrip
      have hclean : stripSpacesAndDashes (c0 :: rest) = c0 :: rest := by
        rw [← hstrip]; exact stripSpacesAndDashes_idem x
      have hall := (stripSpacesAndDashes_eq_self_iff (c0 :: rest)).mp hclean
      have hrest : stripSpacesAndDashes rest = rest :=
        (stripSpacesAndDashes_eq_self_iff rest).mpr
          (fun b hb => hall b (List.mem_cons_of_mem _ hb))
      split at h
      · cases h
      · split at h
        · cases h
          exact NormalizeMSISDN_plus _ hclean
        · split at h
          · cases h
            have h4 : stripSpacesAndDashes (50 :: 51 :: 52 :: rest)
                = 50 :: 51 :: 52 :: rest := by
              rw [stripSpacesAndDashes_eq_self_iff] at hrest ⊢
              intro b hb
              simp only [List.mem_cons] at hb
              rcases hb with rfl | rfl | rfl | hb
              · decide
              · decide
              · decide
              · exact hrest b hb
            exact NormalizeMSISDN_plus _ h4
          · cases h
            rename_i h1 h2 h3
            rw [NormalizeMSISDN_of_clean c0 rest hclean, if_neg h1, if_neg h2,
              if_neg h3]

/-- The statement of C21 on "0801 234-5678", normalized to "+2348012345678". -/
theorem C21_normalize_idempotent_witness :
    NormalizeMSISDN (ascii "0801 234-5678") = some (ascii "+2348012345678") ∧
    NormalizeMSISDN (ascii "+2348012345678") = some (ascii "+2348012345678") :=
  ⟨by decide,
   C21_normalize_idempotent (ascii "0801 234-5678") (ascii "+2348012345678")
     (by decide)⟩

theorem isSpaceOrDash_of_isDigit (b : Nat) (h : isDigit b = true) :
    isSpaceOrDash b = false := by
  simp only [isDigit, decide_eq_true_eq] at h
  simp only [isSpaceOrDash, decide_eq_false_iff_not]
  omega

theorem stripSpacesAndDashes_digits (d : GoString)
    (hd : ∀ b ∈ d, isDigit b = true) : stripSpacesAndDashes d = d :=
  (stripSpacesAndDashes_eq_self_iff d).mpr
    (fun b hb => isSpaceOrDash_of_isDigit b (hd b hb))

/-- What `NormalizeMSISDN` returns once spaces and dashes are removed, for the
three written forms of a number with ten further bytes `d`. -/
theorem NormalizeMSISDN_of_strip (x d : GoString) (hlen : d.length = 10)
    (hx : stripSpacesAndDashes x = 48 :: d ∨
      stripSpacesAndDashes x = [50, 51, 52] ++ d ∨
      stripSpacesAndDashes x = [43, 50, 51, 52] ++ d) :
    NormalizeMSISDN x = some ([43, 50, 51, 52] ++ d) := by
  have hne : ¬ x.length = 0 := by
    intro h0
    have : x = [] := List.length_eq_zero.mp h0
    subst this
    rcases hx with hx | hx | hx <;> simp [stripSpacesAndDashes] at hx
  rcases hx with hx | hx | hx <;>
    simp [NormalizeMSISDN, hne, hx, hlen]

/-- C22: for every string `d` of ten decimal digits, `NormalizeMSISDN` maps
"0"+d, "234"+d and "+234"+d, and every string that is one of them with spaces
or dashes inserted at any positions, to "+234"+d. -/
theorem C22_normalize_canonical (d : GoString) (hlen : d.length = 10)
    (hd : ∀ b ∈ d, isDigit b = true) :
    NormalizeMSISDN (48 :: d) = some ([43, 50, 51, 52] ++ d) ∧
    NormalizeMSISDN ([50, 51, 52] ++ d) = some ([43, 50, 51, 52] ++ d) ∧
    NormalizeMSISDN ([43, 50, 51, 52] ++ d) = some ([43, 50, 51, 52] ++ d) ∧
    (∀ x : GoString,
      (stripSpacesAndDashes x = 48 :: d ∨
        stripSpacesAndDashes x = [50, 51, 52] ++ d ∨
        stripSpacesAndDashes x = [43, 50, 51, 52] ++ d) →
      NormalizeMSISDN x = some ([43, 50, 51, 52] ++ d)) := by
  have hs := stripSpacesAndDashes_digits d hd
  have h0 : stripSpacesAndDashes (48 :: d) = 48 :: d := by
    simp only [stripSpacesAndDashes] at hs ⊢
    rw [List.filter_cons_of_pos (by decide), hs]
  have h234 : stripSpacesAndDashes ([50, 51, 52] ++ d) = [50, 51, 52] ++ d := by
    simp only [stripSpacesAndDashes] at hs ⊢
    rw [List.filter_append, hs]
    rfl
  have hp234 : stripSpacesAndDashes ([43, 50, 51, 52] ++ d)
      = [43, 50, 51, 52] ++ d := by
    simp only [stripSpacesAndDashes] at hs ⊢
    rw [List.filter_append, hs]
    rfl
  exact ⟨NormalizeMSISDN_of_strip _ d hlen (Or.inl h0),
    NormalizeMSISDN_of_strip _ d hlen (Or.inr (Or.inl h234)),
    NormalizeMSISDN_of_strip _ d hlen (Or.inr (Or.inr hp234)),
    fun x hx => NormalizeMSISDN_of_strip x d hlen hx⟩

/-- The statement of C22 for the digits 8012345678, with "0801 234-5678" as a
spaced and dashed input. -/
theorem C22_normalize_canonical_witness :
    (ascii "8012345678").length = 10 ∧
    (∀ b ∈ ascii "8012345678", isDigit b = true) ∧
    NormalizeMSISDN (ascii "08012345678") = some (ascii "+2348012345678") ∧
    NormalizeMSISDN (ascii "0801 234-5678") = some (ascii "+2348012345678") :=
  ⟨by decide, by decide,
   (C22_normalize_canonical (ascii "8012345678") (by decide) (by decide)).1,
   (C22_normalize_canonical (ascii "8012345678") (by decide)
      (by decide)).2.2.2 (ascii "0801 234-5678") (Or.inl (by decide))⟩

/-! ## MNP records -/

theorem is234ThenTenDigits_iff (s : GoString) :
    is234ThenTenDigits s = true
      ↔ ∃ d : GoString, d.length = 10 ∧ (∀ b ∈ d, isDigit b = true) ∧
          s = [50, 51, 52] ++ d := by
  constructor
  · intro h
    simp only [is234ThenTenDigits, Bool.and_eq_true, decide_eq_true_eq,
      List.all_eq_true] at h
    obtain ⟨⟨htake, hlen⟩, hall⟩ := h
    refine ⟨s.drop 3, hlen, hall, ?_⟩
    rw [← htake, List.take_append_drop]
  · rintro ⟨d, hlen, hall, rfl⟩
    simp only [is234ThenTenDigits, Bool.and_eq_true, decide_eq_true_eq,
      List.all_eq_true]
    exact ⟨⟨rfl, hlen⟩, hall⟩

/-- `IsValidMSISDN` accepts exactly "234" or "+234" followed by ten digits. -/
theorem IsValidMSISDN_iff (x : GoString) :
    IsValidMSISDN x = true
      ↔ ∃ d : GoString, d.length = 10 ∧ (∀ b ∈ d, isDigit b = true) ∧
          (x = [50, 51, 52] ++ d ∨ x = [43, 50, 51, 52] ++ d) := by
  unfold IsValidMSISDN
  split
  · rename_i rest
    rw [is234ThenTenDigits_iff]
    constructor
    · rintro ⟨d, hlen, hall, rfl⟩
      exact ⟨d, hlen, hall, Or.inr rfl⟩
    · rintro ⟨d, hlen, hall, h | h⟩
      · simp at h
      · refine ⟨d, hlen, hall, ?_⟩
        simpa using h
  · rename_i hne
    rw [is234ThenTenDigits_iff]
    constructor
    · rintro ⟨d, hlen, hall, rfl⟩
      exact ⟨d, hlen, hall, Or.inl rfl⟩
    · rintro ⟨d, hlen, hall, h | h⟩
      · exact ⟨d, hlen, hall, h⟩
      · exact absurd h (hne _)

/-- C23, as stated, fails: the local form "08012345678", which
`NormalizeMSISDN` turns into "+2348012345678", is refused by `NewMNPRecord`
with `ErrInvalidMSISDN`. -/
theorem C23_local_form_rejected :
    NormalizeMSISDN (ascii "08012345678") = some (ascii "+2348012345678") ∧
    IsValidMSISDN (ascii "08012345678") = false ∧
    NewMNPRecord 100 (ascii "08012345678") "MTN" "GLO" "NPC-1"
      = some (.error MNPError.ErrInvalidMSISDN) := by
  refine ⟨by decide, by decide, rfl⟩

/-- C23, amended: `NewMNPRecord` accepts an MSISDN written as 234XXXXXXXXXX or
+234XXXXXXXXXX (X a digit) and stores it as +234XXXXXXXXXX; for every other
input, the form 0XXXXXXXXXX included, it fails with `ErrInvalidMSISDN` and
creates no record. -/
theorem C23_newMNPRecord_accepts_234_forms (now : Time)
    (originalNetwork currentNetwork npcCode : String) :
    (∀ d : GoString, d.length = 10 → (∀ b ∈ d, isDigit b = true) →
      NewMNPRecord now ([50, 51, 52] ++ d) originalNetwork currentNetwork npcCode
        = some (.ok { msisdn := [43, 50, 51, 52] ++ d
                      originalNetwork := originalNetwork
                      currentNetwork := currentNetwork
                      portedDate := now
                      status := PortingStatusActive
                      npcCode := npcCode
                      createdAt := now
                      updatedAt := now }) ∧
      NewMNPRecord now ([43, 50, 51, 52] ++ d) originalNetwork currentNetwork
          npcCode
        = some (.ok { msisdn := [43, 50, 51, 52] ++ d
                      originalNetwork := originalNetwork
                      currentNetwork := currentNetwork
                      portedDate := now
                      status := PortingStatusActive
                      npcCode := npcCode
                      createdAt := now
                      updatedAt := now })) ∧
    (∀ x : GoString,
      (¬ ∃ d : GoString, d.length = 10 ∧ (∀ b ∈ d, isDigit b = true) ∧
          (x = [50, 51, 52] ++ d ∨ x = [43, 50, 51, 52] ++ d)) →
      NewMNPRecord now x originalNetwork currentNetwork npcCode
        = some (.error MNPError.ErrInvalidMSISDN)) ∧
    (∀ d : GoString, d.length = 10 → (∀ b ∈ d, isDigit b = true) →
      NewMNPRecord now (48 :: d) originalNetwork currentNetwork npcCode
        = some (.error MNPError.ErrInvalidMSISDN)) := by
  have hreject : ∀ x : GoString,
      (¬ ∃ d : GoString, d.length = 10 ∧ (∀ b ∈ d, isDigit b = true) ∧
          (x = [50, 51, 52] ++ d ∨ x = [43, 50, 51, 52] ++ d)) →
      NewMNPRecord now x originalNetwork currentNetwork npcCode
        = some (.error MNPError.ErrInvalidMSISDN) := by
    intro x hx
    have hv : IsValidMSISDN x = false := by
      cases hval : IsValidMSISDN x
      · rfl
      · exact absurd ((IsValidMSISDN_iff x).mp hval) hx
    simp [NewMNPRecord, hv]
  refine ⟨?_, hreject, ?_⟩
  · intro d hlen hd
    have hv1 : IsValidMSISDN ([50, 51, 52] ++ d) = true :=
      (IsValidMSISDN_iff _).mpr ⟨d, hlen, hd, Or.inl rfl⟩
    have hv2 : IsValidMSISDN ([43, 50, 51, 52] ++ d) = true :=
      (IsValidMSISDN_iff _).mpr ⟨d, hlen, hd, Or.inr rfl⟩
    have hs := stripSpacesAndDashes_digits d hd
    have hn1 : NormalizeMSISDN ([50, 51, 52] ++ d)
        = some ([43, 50, 51, 52] ++ d) := by
      apply NormalizeMSISDN_of_strip _ d hlen
      right; left
      simp only [stripSpacesAndDashes] at hs ⊢
      rw [List.filter_append, hs]
      rfl
    have hn2 : NormalizeMSISDN ([43, 50, 51, 52] ++ d)
        = some ([43, 50, 51, 52] ++ d) := by
      apply NormalizeMSISDN_of_strip _ d hlen
      right; right
      simp only [stripSpacesAndDashes] at hs ⊢
      rw [List.filter_append, hs]
      rfl
    constructor
    · simp only [NewMNPRecord, hv1, hn1]
      rfl
    · simp only [NewMNPRecord, hv2, hn2]
      rfl
  · intro d hlen hd
    apply hreject
    rintro ⟨d2, _, _, h | h⟩ <;> simp at h

/-! ## Totality of the normalization -/

/-- `NormalizeMSISDN` panics exactly on a non-empty string that, once spaces and
dashes are removed, is empty or does not start with '+' and has fewer than three
bytes. -/
theorem NormalizeMSISDN_eq_none_iff (x : GoString) :
    NormalizeMSISDN x = none
      ↔ x ≠ [] ∧
          (stripSpacesAndDashes x = [] ∨
            ((stripSpacesAndDashes x).head? ≠ some 43 ∧
              (stripSpacesAndDashes x).length < 3)) := by
  unfold NormalizeMSISDN
  split
  · rename_i h0
    simp [List.length_eq_zero.mp h0]
  · rename_i h0
    have hne : x ≠ [] := fun e => h0 (by rw [e]; rfl)
    split
    · rename_i hs
      simp [hs, hne]
    · rename_i c0 rest hs
      rw [hs]
      by_cases h1 : c0 ≠ 43 ∧ (c0 :: rest).length < 3
      · rw [if_pos h1]
        simp only [true_iff]
        exact ⟨hne, Or.inr ⟨by simpa using h1.1, h1.2⟩⟩
      · rw [if_neg h1]
        have hrhs : ¬ (x ≠ [] ∧ (False ∨
            ((c0 :: rest).head? ≠ some 43 ∧ (c0 :: rest).length < 3))) := by
          rintro ⟨_, h | ⟨ha, hb⟩⟩
          · exact h
          · exact h1 ⟨by simpa using ha, hb⟩
        split_ifs <;>
          exact Iff.intro (fun h => nomatch h) (fun h => absurd h hrhs)

/-- C30 on short inputs: `NormalizeMSISDN` does not return on "12" and on "0"
(the slice `cleaned[0:3]` is out of range) nor on a lone space (the index
`cleaned[0]` is out of range). -/
theorem C30_normalize_panics_on_short_input :
    NormalizeMSISDN (ascii "12") = none ∧
    NormalizeMSISDN (ascii "0") = none ∧
    NormalizeMSISDN (ascii " ") = none ∧
    NormalizeMSISDN (ascii "- -") = none := by
  decide

/-! ## Blacklist: no duplicate active entries -/

theorem activeEntries_eq_countP (m : BlacklistStore) (now : Time)
    (value : String) :
    activeEntries m now value
      = m.countP (fun e => decide (e.2.Value = value) && ! e.2.IsExpired now) := by
  rw [activeEntries, List.countP_eq_length_filter]

theorem isExpired_of_le (b : Blacklist) (t1 t2 : Time) (h : t1 ≤ t2)
    (he : b.IsExpired t1 = true) : b.IsExpired t2 = true := by
  unfold Blacklist.IsExpired at he ⊢
  cases hx : b.ExpiresAt with
  | none => rw [hx] at he; cases he
  | some x =>
    rw [hx] at he
    simp only [decide_eq_true_eq] at he ⊢
    exact lt_of_lt_of_le he h

/-- An entry that is active at an instant was active at every earlier one, so
the active entries of a store can only become fewer as time passes. -/
theorem activeEntries_antitone (m : BlacklistStore) (t1 t2 : Time)
    (h : t1 ≤ t2) (value : String) :
    activeEntries m t2 value ≤ activeEntries m t1 value := by
  rw [activeEntries_eq_countP, activeEntries_eq_countP]
  apply List.countP_mono_left
  intro e _ he
  simp only [Bool.and_eq_true, decide_eq_true_eq, Bool.not_eq_true'] at he ⊢
  refine ⟨he.1, ?_⟩
  cases h1 : e.2.IsExpired t1
  · rfl
  · rw [isExpired_of_le e.2 t1 t2 h h1] at he
    exact absurd he.2 (by simp)

theorem activeEntries_eq_zero_of_not_blacklisted (m : BlacklistStore)
    (now : Time) (value : String)
    (h : m.IsBlacklisted now value = false) :
    activeEntries m now value = 0 := by
  rw [activeEntries, List.length_eq_zero, List.filter_eq_nil_iff]
  intro e he hp
  have : m.IsBlacklisted now value = true := by
    simp only [BlacklistStore.IsBlacklisted, List.any_eq_true]
    exact ⟨e, he, hp⟩
  rw [h] at this
  cases this

theorem activeEntries_save_le (m : BlacklistStore) (entry : Blacklist)
    (now : Time) (value : String) :
    activeEntries (m.Save entry) now value
      ≤ (if entry.Value = value then 1 else 0) + activeEntries m now value := by
  have hsub : activeEntries (m.filter (fun e => decide (e.1 ≠ entry.ID))) now
      value ≤ activeEntries m now value := by
    rw [activeEntries_eq_countP, activeEntries_eq_countP]
    exact List.Sublist.countP_le _ (List.filter_sublist m)
  have hcons : activeEntries (m.Save entry) now value
      = (if (decide (entry.Value = value) && ! entry.IsExpired now) = true
          then 1 else 0)
        + activeEntries (m.filter (fun e => decide (e.1 ≠ entry.ID))) now
            value := by
    simp only [activeEntries, BlacklistStore.Save, List.filter_cons]
    split_ifs <;> simp [Nat.add_comm]
  rw [hcons]
  by_cases hv : entry.Value = value
  · rw [if_pos hv]
    split_ifs <;> omega
  · rw [if_neg hv]
    have : (decide (entry.Value = value) && ! entry.IsExpired now) = false := by
      simp [hv]
    rw [this]
    simpa using hsub

/-- One call at instant `c.now` keeps the store free of duplicate active
entries at that instant. -/
theorem activeEntries_apply_le_one (m : BlacklistStore) (c : AddCall)
    (h : ∀ value, activeEntries m c.now value ≤ 1) :
    ∀ value, activeEntries (c.apply m) c.now value ≤ 1 := by
  intro value
  unfold AddCall.apply AddToBlacklist
  cases hb : m.IsBlacklisted c.now c.value
  · simp only [Bool.false_eq_true, if_false]
    have hle := activeEntries_save_le m
      (NewBlacklistEntry c.id c.created c.entryType c.value c.reason "manual"
        c.addedBy none) c.now value
    simp only [NewBlacklistEntry] at hle ⊢
    by_cases hv : c.value = value
    · rw [if_pos hv] at hle
      have h0 := activeEntries_eq_zero_of_not_blacklisted m c.now c.value hb
      rw [hv] at h0
      omega
    · rw [if_neg hv] at hle
      have := h value
      omega
  · simp only [if_true]
    exact h value

theorem activeEntries_runAdds_le_one (calls : List AddCall) :
    ∀ (m : BlacklistStore) (t0 : Time),
      (∀ value, activeEntries m t0 value ≤ 1) →
      clockMonotone t0 calls = true →
      ∀ t : Time, (∀ c ∈ calls, c.now ≤ t) → t0 ≤ t →
      ∀ value, activeEntries (runAdds m calls) t value ≤ 1 := by
  induction calls with
  | nil =>
    intro m t0 h _ t _ ht value
    exact le_trans (activeEntries_antitone m t0 t ht value) (h value)
  | cons c cs ih =>
    intro m t0 h hmono t hall _ value
    simp only [clockMonotone, Bool.and_eq_true, decide_eq_true_eq] at hmono
    have hnow : ∀ v, activeEntries m c.now v ≤ 1 := fun v =>
      le_trans (activeEntries_antitone m t0 c.now hmono.1 v) (h v)
    exact ih (c.apply m) c.now (activeEntries_apply_le_one m c hnow) hmono.2 t
      (fun c2 hc2 => hall c2 (List.mem_cons_of_mem _ hc2))
      (hall c (List.mem_cons_self _ _)) value

theorem activeEntries_time_indep (m : BlacklistStore)
    (h : ∀ e ∈ m, e.2.ExpiresAt = none) (t1 t2 : Time) (value : String) :
    activeEntries m t1 value = activeEntries m t2 value := by
  unfold activeEntries
  congr 1
  apply List.filter_congr
  intro e he
  simp [Blacklist.IsExpired, h e he]

theorem never_expiring_apply (m : BlacklistStore) (c : AddCall)
    (h : ∀ e ∈ m, e.2.ExpiresAt = none) :
    ∀ e ∈ c.apply m, e.2.ExpiresAt = none := by
  unfold AddCall.apply AddToBlacklist
  cases m.IsBlacklisted c.now c.value
  · intro e he
    simp only [Bool.false_eq_true, if_false, BlacklistStore.Save,
      List.mem_cons] at he
    rcases he with rfl | he
    · rfl
    · exact h e (List.mem_of_mem_filter he)
  · simpa using h

/-- From a store whose entries never expire, the empty store included, no
sequence of calls produces two active entries with the same value, whatever
the clock readings. -/
theorem activeEntries_runAdds_never_expiring (calls : List AddCall) :
    ∀ m : BlacklistStore, (∀ e ∈ m, e.2.ExpiresAt = none) →
      (∀ (t : Time) (value : String), activeEntries m t value ≤ 1) →
      ∀ (t : Time) (value : String),
        activeEntries (runAdds m calls) t value ≤ 1 := by
  induction calls with
  | nil => intro m _ h; exact h
  | cons c cs ih =>
    intro m hne h
    have hne2 := never_expiring_apply m c hne
    refine ih (c.apply m) hne2 ?_
    intro t value
    rw [activeEntries_time_indep (c.apply m) hne2 t c.now value]
    exact activeEntries_apply_le_one m c (fun v => h c.now v) value

/-- C24: with the store of the tests, in which `IsBlacklisted(v)` holds exactly
when a non-expired entry has value `v`, `AddToBlacklist` of a value that is
blacklisted at that instant returns an error and leaves the store unchanged; so,
starting from a store without two active entries of the same value, no sequence
of `AddToBlacklist` calls whose clock readings do not go back produces two
active entries with the same value, at the instant of the last call or later;
and starting from the empty store no sequence of calls does, whatever the clock
readings. -/
theorem C24_no_duplicate_active_entries (m : BlacklistStore) (t0 : Time)
    (calls : List AddCall) (t : Time) (value : String)
    (h0 : ∀ v, activeEntries m t0 v ≤ 1)
    (hmono : clockMonotone t0 calls = true)
    (hall : ∀ c ∈ calls, c.now ≤ t) (ht : t0 ≤ t) :
    (∀ (m1 : BlacklistStore) (now : Time) (id : String) (created : Time)
        (entryType v reason addedBy : String),
      (m1.IsBlacklisted now v = true ↔ 0 < activeEntries m1 now v) ∧
      (m1.IsBlacklisted now v = true →
        AddToBlacklist m1 now id created entryType v reason addedBy
          = (m1, some "entry already blacklisted"))) ∧
    activeEntries (runAdds m calls) t value ≤ 1 ∧
    (∀ (calls1 : List AddCall) (t1 : Time) (v : String),
      activeEntries (runAdds [] calls1) t1 v ≤ 1) := by
  refine ⟨?_, activeEntries_runAdds_le_one calls m t0 h0 hmono t hall ht value,
    fun calls1 => activeEntries_runAdds_never_expiring calls1 []
      (fun e he => nomatch he) (fun _ _ => Nat.zero_le _)⟩
  intro m1 now id created entryType v reason addedBy
  constructor
  · rw [activeEntries, List.length_pos, ne_eq, List.filter_eq_nil_iff]
    simp only [BlacklistStore.IsBlacklisted, List.any_eq_true]
    constructor
    · rintro ⟨e, he, hp⟩ hnone
      exact hnone e he hp
    · intro hne
      by_contra hcon
      exact hne (fun e he hp => hcon ⟨e, he, hp⟩)
  · intro hb
    simp [AddToBlacklist, hb]

/-- The statement of C24 on `TestFraudServiceBlacklist`: the same value added
twice to the empty store, then looked at instant 3. -/
theorem C24_no_duplicate_active_entries_witness :
    (∀ v, activeEntries [] 0 v ≤ 1) ∧
    clockMonotone 0 sampleAdds = true ∧
    (∀ c ∈ sampleAdds, c.now ≤ 3) ∧
    activeEntries (runAdds [] sampleAdds) 3 "+2348012345678" ≤ 1 :=
  ⟨fun _ => Nat.zero_le _, by decide, by decide,
   (C24_no_duplicate_active_entries [] 0 sampleAdds 3 "+2348012345678"
      (fun _ => Nat.zero_le _) (by decide) (by decide) (by decide)).2.1⟩

/-! ## Resolve on a pending alert -/

/-- `Resolve` has no guard on pending: on every alert whose status is pending
it succeeds and sets status resolved. -/
theorem resolve_of_pending (a : FraudAlert) (now : Time) (userID : String)
    (resolution : ResolutionType) (notes : String)
    (h : a.status = AlertStatus.AlertStatusPending) :
    (a.Resolve now userID resolution notes).2 = none ∧
    (a.Resolve now userID resolution notes).1.status
      = AlertStatus.AlertStatusResolved := by
  simp [FraudAlert.Resolve, h]

/-- C25 on a new alert: `Resolve` applied to the pending alert of
`TestAlertWorkflow`, never acknowledged, returns no error and leaves it
resolved, with resolved-by and resolved-at set. -/
theorem C25_resolve_pending_succeeds :
    sampleAlert.status = AlertStatus.AlertStatusPending ∧
    sampleAlert.acknowledgedBy = none ∧
    (sampleAlert.Resolve 101 "analyst-1" ResolutionConfirmedFraud "verified").2
      = none ∧
    (sampleAlert.Resolve 101 "analyst-1" ResolutionConfirmedFraud "verified"
      ).1.status = AlertStatus.AlertStatusResolved ∧
    (sampleAlert.Resolve 101 "analyst-1" ResolutionConfirmedFraud "verified"
      ).1.resolvedBy = some "analyst-1" ∧
    (sampleAlert.Resolve 101 "analyst-1" ResolutionConfirmedFraud "verified"
      ).1.resolvedAt = some 101 :=
  ⟨rfl, rfl, rfl, rfl, rfl, rfl⟩

/-! ## Access checks -/

theorem breakdownLoop_of_fresh_types (rc : RevenueCalculator)
    (rows : List BreakdownRow) :
    ∀ (m : RevenueMap) (revenueProtected : ℚ),
      (∀ row ∈ rows, row.eventType ∉ m.map (fun e => e.1)) →
      (rows.map (fun row => row.eventType)).Nodup →
      (breakdownLoop rc rows m revenueProtected).2
          - RevenueMap.total (breakdownLoop rc rows m revenueProtected).1
        = revenueProtected - RevenueMap.total m := by
  induction rows with
  | nil => intro m revenueProtected _ _; rfl
  | cons row rest ih =>
    intro m revenueProtected hfresh hnodup
    have hk : row.eventType ∉ m.map (fun e => e.1) :=
      hfresh row (List.mem_cons_self _ _)
    have hfilter : m.filter (fun e => decide (e.1 ≠ row.eventType)) = m := by
      rw [List.filter_eq_self]
      intro e he
      simp only [ne_eq, decide_eq_true_eq]
      intro heq
      exact hk (List.mem_map.mpr ⟨e, he, heq⟩)
    rw [List.map_cons, List.nodup_cons] at hnodup
    have hset : RevenueMap.set m row.eventType
          (row.minutes * rc.determineRate row.country)
        = (row.eventType, row.minutes * rc.determineRate row.country) :: m := by
      rw [RevenueMap.set, hfilter]
    have hnext : ∀ r ∈ rest, r.eventType ∉
        (RevenueMap.set m row.eventType
          (row.minutes * rc.determineRate row.country)).map (fun e => e.1) := by
      intro r hr
      rw [hset, List.map_cons, List.mem_cons, not_or]
      constructor
      · intro heq
        exact hnodup.1 (List.mem_map.mpr ⟨r, hr, heq⟩)
      · exact hfresh r (List.mem_cons_of_mem _ hr)
    simp only [breakdownLoop]
    rw [ih _ _ hnext hnodup.2, hset]
    simp only [RevenueMap.total, List.map_cons, List.sum_cons]
    ring

/-- When every row has a fraud type of its own, the revenue protected is the
sum of the values of the breakdown by fraud type (in exact arithmetic). -/
theorem revenueProtected_eq_total_of_nodup (rc : RevenueCalculator)
    (rows : List BreakdownRow)
    (h : (rows.map (fun row => row.eventType)).Nodup) :
    (revenueBreakdown rc rows).2
      = RevenueMap.total (revenueBreakdown rc rows).1 := by
  have hloop := breakdownLoop_of_fresh_types rc rows [] 0 (by simp) h
  have hnil : RevenueMap.total [] = 0 := rfl
  rw [hnil, sub_zero] at hloop
  exact sub_eq_zero.mp hloop

/-- C27 on two rows of one fraud type: for "SIMBOX_DETECTED" with 10 minutes
from "NGA" and 10 minutes from "USA", the revenue protected is
10 * 5.50 + 10 * 45.00 = 505, while the breakdown by fraud type holds the single
value 450 of the last row, so the sum of its values is 450. -/
theorem C27_breakdown_overwritten :
    (revenueBreakdown NewRevenueCalculator sampleRows).2 = 505 ∧
    (revenueBreakdown NewRevenueCalculator sampleRows).1
      = [("SIMBOX_DETECTED", 450)] ∧
    RevenueMap.total (revenueBreakdown NewRevenueCalculator sampleRows).1
      = 450 ∧
    (revenueBreakdown NewRevenueCalculator sampleRows).2
      ≠ RevenueMap.total (revenueBreakdown NewRevenueCalculator sampleRows).1 := by
  have hne : ¬ ("USA" = "NGA" ∨ "USA" = "234") := by decide
  have h1 : (revenueBreakdown NewRevenueCalculator sampleRows).2 = 505 := by
    norm_num [revenueBreakdown, breakdownLoop, sampleRows, NewRevenueCalculator,
      RevenueCalculator.determineRate, hne]
  have h2 : (revenueBreakdown NewRevenueCalculator sampleRows).1
      = [("SIMBOX_DETECTED", 450)] := by
    norm_num [revenueBreakdown, breakdownLoop, sampleRows, NewRevenueCalculator,
      RevenueCalculator.determineRate, RevenueMap.set, hne]
  refine ⟨h1, h2, ?_, ?_⟩
  · rw [h2]; norm_num [RevenueMap.total]
  · rw [h1, h2]; norm_num [RevenueMap.total]

/-! ## Threat probability -/

/-- When at most 95% of the days of the history are non-zero, a higher expected
count does not lower the probability (in exact arithmetic). -/
theorem calculateProbability_mono_of_le (historical : List Int) (c1 c2 : Int)
    (hc : c1 ≤ c2)
    (hb : (((historical.filter (fun count => decide (count > 0))).length : ℚ)
      / (historical.length : ℚ)) ≤ 19 / 20) :
    calculateProbability historical c1 ≤ calculateProbability historical c2 := by
  unfold calculateProbability
  by_cases h0 : historical.length = 0
  · simp [h0]
  · simp only [h0, if_false]
    have hnn : (0 : ℚ) ≤ ((historical.filter
        (fun count => decide (count > 0))).length : ℚ)
        / (historical.length : ℚ) := by positivity
    by_cases h1 : c1 > 10
    · have h2 : c2 > 10 := by omega
      simp [h1, h2]
    · by_cases h2 : c2 > 10
      · simp only [h1, h2, if_true, if_false]
        apply le_min hb
        linarith
      · simp [h1, h2]

/-- C29 on the history of the test "adjusts for high expected count": with
four non-zero days the probability is 1 for the expected count 5 and 0.95 for
the expected count 50, so the higher count has the lower probability. -/
theorem C29_higher_count_lower_probability :
    calculateProbability [10, 12, 8, 15] 5 = 1 ∧
    calculateProbability [10, 12, 8, 15] 50 = 19 / 20 ∧
    ¬ (calculateProbability [10, 12, 8, 15] 50
        ≥ calculateProbability [10, 12, 8, 15] 5) := by
  have h1 : calculateProbability [10, 12, 8, 15] 5 = 1 := by
    norm_num [calculateProbability, List.filter]
  have h2 : calculateProbability [10, 12, 8, 15] 50 = 19 / 20 := by
    norm_num [calculateProbability, List.filter]
  refine ⟨h1, h2, ?_⟩
  rw [h1, h2]
  norm_num

/-! ## Password policy -/

theorem passwordStep_eq (flags : PasswordFlags) (char : Nat) :
    passwordStep flags char
      = { hasUpper := flags.hasUpper || decide (65 ≤ char ∧ char ≤ 90)
          hasLower := flags.hasLower || decide (97 ≤ char ∧ char ≤ 122)
          hasNumber := flags.hasNumber || decide (48 ≤ char ∧ char ≤ 57)
          hasSpecial := flags.hasSpecial || isSpecialChar char } := by
  obtain ⟨u, l, n, sp⟩ := flags
  unfold passwordStep
  by_cases h1 : 65 ≤ char ∧ char ≤ 90
  · have h2 : ¬ (97 ≤ char ∧ char ≤ 122) := by omega
    have h3 : ¬ (48 ≤ char ∧ char ≤ 57) := by omega
    have h4 : isSpecialChar char = false := by
      simp only [isSpecialChar, decide_eq_false_iff_not]; omega
    simp [h1, h2, h3, h4]
  · by_cases h2 : 97 ≤ char ∧ char ≤ 122
    · have h3 : ¬ (48 ≤ char ∧ char ≤ 57) := by omega
      have h4 : isSpecialChar char = false := by
        simp only [isSpecialChar, decide_eq_false_iff_not]; omega
      simp [h1, h2, h3, h4]
    · by_cases h3 : 48 ≤ char ∧ char ≤ 57
      · have h4 : isSpecialChar char = false := by
          simp only [isSpecialChar, decide_eq_false_iff_not]; omega
        simp [h1, h2, h3, h4]
      · cases h4 : isSpecialChar char <;> simp [h1, h2, h3, h4]

theorem foldl_passwordStep (chars : List Nat) :
    ∀ flags : PasswordFlags,
      chars.foldl passwordStep flags
        = { hasUpper := flags.hasUpper ||
              chars.any (fun c => decide (65 ≤ c ∧ c ≤ 90))
            hasLower := flags.hasLower ||
              chars.any (fun c => decide (97 ≤ c ∧ c ≤ 122))
            hasNumber := flags.hasNumber ||
              chars.any (fun c => decide (48 ≤ c ∧ c ≤ 57))
            hasSpecial := flags.hasSpecial || chars.any isSpecialChar } := by
  induction chars with
  | nil => intro flags; simp
  | cons c rest ih =>
    intro flags
    rw [List.foldl_cons, ih, passwordStep_eq]
    simp [Bool.or_assoc]

/-- The result of `validatePassword` in terms of the code points of the
password. -/
theorem validatePassword_eq (password : String) :
    validatePassword password
      = if password.utf8ByteSize < 12 then
          some "password must be at least 12 characters"
        else if ! (password.data.map Char.toNat).any
            (fun c => decide (65 ≤ c ∧ c ≤ 90)) then
          some "password must contain at least one uppercase letter"
        else if ! (password.data.map Char.toNat).any
            (fun c => decide (97 ≤ c ∧ c ≤ 122)) then
          some "password must contain at least one lowercase letter"
        else if ! (password.data.map Char.toNat).any
            (fun c => decide (48 ≤ c ∧ c ≤ 57)) then
          some "password must contain at least one number"
        else if ! (password.data.map Char.toNat).any isSpecialChar then
          some "password must contain at least one special character"
        else none := by
  unfold validatePassword
  simp only [foldl_passwordStep, Bool.false_or]

/-- The passwords of the tests: "StrongPass123!" is accepted, "Short1!" and
"weak" are too short, and the three others miss an uppercase letter, a number
and a special character. -/
theorem validatePassword_test_cases :
    validatePassword "StrongPass123!" = none ∧
    validatePassword "Short1!" = some "password must be at least 12 characters" ∧
    validatePassword "weak" = some "password must be at least 12 characters" ∧
    validatePassword "weakpassword123!"
      = some "password must contain at least one uppercase letter" ∧
    validatePassword "WeakPassword!"
      = some "password must contain at least one number" ∧
    validatePassword "WeakPassword123"
      = some "password must contain at least one special character" := by
  simp only [validatePassword_eq]
  decide

/-- C28: `validatePassword` accepts a password iff it is at least 12 bytes long
and contains an uppercase letter A-Z, a lowercase letter a-z, a digit 0-9 and
one of the characters !@#$%^&*; otherwise it returns the error of the first
unmet requirement in the order length, uppercase, lowercase, number, special
character. -/
theorem C28_validatePassword (password : String) :
    (validatePassword password = none ↔
      12 ≤ password.utf8ByteSize ∧
      (∃ c ∈ password.data.map Char.toNat, 65 ≤ c ∧ c ≤ 90) ∧
      (∃ c ∈ password.data.map Char.toNat, 97 ≤ c ∧ c ≤ 122) ∧
      (∃ c ∈ password.data.map Char.toNat, 48 ≤ c ∧ c ≤ 57) ∧
      (∃ c ∈ password.data.map Char.toNat, isSpecialChar c = true)) ∧
    (password.utf8ByteSize < 12 →
      validatePassword password
        = some "password must be at least 12 characters") ∧
    (12 ≤ password.utf8ByteSize →
      (¬ ∃ c ∈ password.data.map Char.toNat, 65 ≤ c ∧ c ≤ 90) →
      validatePassword password
        = some "password must contain at least one uppercase letter") ∧
    (12 ≤ password.utf8ByteSize →
      (∃ c ∈ password.data.map Char.toNat, 65 ≤ c ∧ c ≤ 90) →
      (¬ ∃ c ∈ password.data.map Char.toNat, 97 ≤ c ∧ c ≤ 122) →
      validatePassword password
        = some "password must contain at least one lowercase letter") ∧
    (12 ≤ password.utf8ByteSize →
      (∃ c ∈ password.data.map Char.toNat, 65 ≤ c ∧ c ≤ 90) →
      (∃ c ∈ password.data.map Char.toNat, 97 ≤ c ∧ c ≤ 122) →
      (¬ ∃ c ∈ password.data.map Char.toNat, 48 ≤ c ∧ c ≤ 57) →
      validatePassword password
        = some "password must contain at least one number") ∧
    (12 ≤ password.utf8ByteSize →
      (∃ c ∈ password.data.map Char.toNat, 65 ≤ c ∧ c ≤ 90) →
      (∃ c ∈ password.data.map Char.toNat, 97 ≤ c ∧ c ≤ 122) →
      (∃ c ∈ password.data.map Char.toNat, 48 ≤ c ∧ c ≤ 57) →
      (¬ ∃ c ∈ password.data.map Char.toNat, isSpecialChar c = true) →
      validatePassword password
        = some "password must contain at least one special character") := by
  have hU : (password.data.map Char.toNat).any
        (fun c => decide (65 ≤ c ∧ c ≤ 90)) = true
      ↔ ∃ c ∈ password.data.map Char.toNat, 65 ≤ c ∧ c ≤ 90 := by
    simp only [List.any_eq_true, decide_eq_true_eq]
  have hL : (password.data.map Char.toNat).any
        (fun c => decide (97 ≤ c ∧ c ≤ 122)) = true
      ↔ ∃ c ∈ password.data.map Char.toNat, 97 ≤ c ∧ c ≤ 122 := by
    simp only [List.any_eq_true, decide_eq_true_eq]
  have hN : (password.data.map Char.toNat).any
        (fun c => decide (48 ≤ c ∧ c ≤ 57)) = true
      ↔ ∃ c ∈ password.data.map Char.toNat, 48 ≤ c ∧ c ≤ 57 := by
    simp only [List.any_eq_true, decide_eq_true_eq]
  have hS : (password.data.map Char.toNat).any isSpecialChar = true
      ↔ ∃ c ∈ password.data.map Char.toNat, isSpecialChar c = true := by
    simp only [List.any_eq_true]
  rw [← hU, ← hL, ← hN, ← hS, validatePassword_eq]
  by_cases hlen : password.utf8ByteSize < 12
  · have hnot : ¬ 12 ≤ password.utf8ByteSize := by omega
    simp [hlen, hnot]
  · have hge : 12 ≤ password.utf8ByteSize := by omega
    cases (password.data.map Char.toNat).any
        (fun c => decide (65 ≤ c ∧ c ≤ 90)) <;>
      cases (password.data.map Char.toNat).any
        (fun c => decide (97 ≤ c ∧ c ≤ 122)) <;>
      cases (password.data.map Char.toNat).any
        (fun c => decide (48 ≤ c ∧ c ≤ 57)) <;>
      cases (password.data.map Char.toNat).any isSpecialChar <;>
      simp [hlen, hge]

end VoxGuard
